import Mathlib

/-!
The book store of `golang-simple-server` (`api/book.go`).

A shallow embedding of the in-memory book store, of its five operations
(`AllBooks`, `CreateBook`, `GetBook`, `UpdateBook`, `DeleteBook`) and of the two
HTTP handlers built on them, followed by theorems about them.

Modelling conventions.

* A Go `string` is an immutable sequence of bytes: `GoString := List Nat`.
  `len` is the number of bytes, `==` is equality of the byte sequences and `<`
  is the lexicographic (byte-wise) order. Literals of the source are written
  `lit "..."`, the UTF-8 bytes of the literal.
* The package variable `Books` is threaded explicitly: every operation takes the
  current map and returns the new one next to its Go results.
* A Go `map[string]Book` is a finite map: a list of key/value entries whose keys
  are pairwise distinct. The order of the list stands for the order in which a
  `range` loop visits the map, which Go leaves unspecified; theorems about
  `AllBooks` are stated for every store, hence for every visiting order.
* The library routine `sort.Slice` is a parameter (`SortSlice`) carrying what
  the `sort` package documents: the slice is permuted, and afterwards no element
  is `less` than an element before it. It is not assumed to be stable.
* `encoding/json` is a parameter as well (`JSON`), with no assumption on it.
-/

namespace BookAPI

/-! ## Strings -/

/-- A Go string: a sequence of bytes. -/
abbrev GoString := List Nat

/-- The bytes (UTF-8) of a string literal of the source. -/
def lit (s : String) : GoString := s.toUTF8.data.toList.map UInt8.toNat

/-- Go builtin `len` on a string: its number of bytes. -/
def len (s : GoString) : Nat := s.length

/-! ## Data model -/

/-- The three package-level error values (`errors.New` gives each its own identity). -/
inductive Error where
  | errAlreadyExists
  | errMissingField
  | errDoesNotExist
  deriving DecidableEq

/-- The text each error value was created with. -/
def Error.text : Error → GoString
  | .errAlreadyExists => lit "Item already exists"
  | .errMissingField => lit "Item is missing a required field"
  | .errDoesNotExist => lit "Item does not exist"

/-- Book type with Title, Author and ISBN. -/
structure Book where
  Title : GoString
  Author : GoString
  ISBN : GoString
  deriving DecidableEq

/-- The zero value `Book{}`. -/
def Book.zero : Book := ⟨[], [], []⟩

/-- A `map[string]Book`: entries with pairwise distinct keys. -/
structure Store where
  entries : List (GoString × Book)
  nodup : (entries.map Prod.fst).Nodup

namespace Store

/-- The entry stored at key `k`, if any. -/
def find? (m : Store) (k : GoString) : Option Book :=
  (m.entries.find? (fun e => decide (e.1 = k))).map Prod.snd

/-- Go `v, ok := m[k]`: the value and `true`, or the zero value and `false`. -/
def index (m : Store) (k : GoString) : Book × Bool :=
  match m.find? k with
  | some v => (v, true)
  | none => (Book.zero, false)

/-- Go `delete(m, k)`. -/
def delete (m : Store) (k : GoString) : Store :=
  ⟨m.entries.filter (fun e => decide (e.1 ≠ k)),
    m.nodup.sublist ((List.filter_sublist m.entries).map Prod.fst)⟩

/-- Go `m[k] = v`: afterwards `k` maps to `v`, every other key is untouched. -/
def set (m : Store) (k : GoString) (v : Book) : Store :=
  ⟨(k, v) :: m.entries.filter (fun e => decide (e.1 ≠ k)), by
    rw [List.map_cons, List.nodup_cons]
    refine ⟨?_, m.nodup.sublist ((List.filter_sublist m.entries).map Prod.fst)⟩
    intro hmem
    obtain ⟨e, he, hk⟩ := List.mem_map.1 hmem
    have hne := (List.mem_filter.1 he).2
    simp at hne
    exact hne hk⟩

/-- The keys of the map. -/
def keys (m : Store) : List GoString := m.entries.map Prod.fst

/-- Go `len(m)`: the number of entries. -/
def size (m : Store) : Nat := m.entries.length

/-- The values in the order a `range` loop visits them. -/
def values (m : Store) : List Book := m.entries.map Prod.snd

end Store

/-- Books: the map of all known books, as initialised at program start. -/
def Books : Store :=
  ⟨[(lit "0123456789", ⟨lit "Cloud Native Go", lit "M. L. Reimer", lit "0123456789"⟩),
    (lit "0987654321", ⟨lit "Hello World", lit "E. Pavlova", lit "0987654321"⟩)],
   by decide⟩

/-! ## `sort.Slice` -/

/-- What the `sort` package asks of a `less` function: a transitive ordering whose
negation is transitive too, and no element less than itself. -/
structure LessOK {α : Type} (less : α → α → Bool) : Prop where
  irrefl : ∀ a, less a a = false
  trans : ∀ a b c, less a b = true → less b c = true → less a c = true
  negTrans : ∀ a b c, less a b = false → less b c = false → less a c = false

/-- The library routine `sort.Slice` as used on a `[]Book`, with its documented
contract: the result is a rearrangement of the slice in which no element is `less`
than an earlier one. Nothing is assumed about the order of elements that compare
equal. -/
structure SortSlice where
  sort : (Book → Book → Bool) → List Book → List Book
  perm : ∀ less s, (sort less s).Perm s
  sorted : ∀ less s, LessOK less → (sort less s).Pairwise (fun a b => less b a = false)

/-- Insert `x` in front of the first element it is `less` than. -/
def insertSorted (less : Book → Book → Bool) (x : Book) : List Book → List Book
  | [] => [x]
  | y :: ys => if less x y then x :: y :: ys else y :: insertSorted less x ys

/-- Insertion sort, one routine that meets the contract of `sort.Slice`. -/
def insertionSort (less : Book → Book → Bool) : List Book → List Book
  | [] => []
  | x :: xs => insertSorted less x (insertionSort less xs)

/-- Insertion sort meets the contract of `sort.Slice`; it is the instance used to
evaluate `AllBooks` on concrete stores. -/
def insertionSortSlice : SortSlice where
  sort := insertionSort
  perm := by
    intro less s
    have hins : ∀ (x : Book) (l : List Book), (insertSorted less x l).Perm (x :: l) := by
      intro x l
      induction l with
      | nil => exact List.Perm.refl _
      | cons y ys ih =>
        simp only [insertSorted]
        split
        · exact List.Perm.refl _
        · exact (List.Perm.cons y ih).trans (List.Perm.swap x y ys)
    induction s with
    | nil => exact List.Perm.refl _
    | cons x xs ih => exact (hins x _).trans (List.Perm.cons x ih)
  sorted := by
    intro less s hless
    have hmem : ∀ (x : Book) (l : List Book) (z : Book),
        z ∈ insertSorted less x l → z = x ∨ z ∈ l := by
      intro x l
      induction l with
      | nil => intro z hz; simpa [insertSorted] using hz
      | cons y ys ih =>
        intro z hz
        simp only [insertSorted] at hz
        split at hz
        · simpa using hz
        · rcases List.mem_cons.1 hz with h | h
          · exact Or.inr (List.mem_cons.2 (Or.inl h))
          · rcases ih z h with h1 | h1
            · exact Or.inl h1
            · exact Or.inr (List.mem_cons.2 (Or.inr h1))
    have hins : ∀ (x : Book) (l : List Book),
        l.Pairwise (fun a b => less b a = false) →
          (insertSorted less x l).Pairwise (fun a b => less b a = false) := by
      intro x l
      induction l with
      | nil => intro _; simp [insertSorted]
      | cons y ys ih =>
        intro hl
        have hy : ∀ z ∈ ys, less z y = false := (List.pairwise_cons.1 hl).1
        have hys : ys.Pairwise (fun a b => less b a = false) := (List.pairwise_cons.1 hl).2
        simp only [insertSorted]
        split
        · next hxy =>
          refine List.pairwise_cons.2 ⟨?_, hl⟩
          intro z hz
          cases hzx : less z x with
          | false => rfl
          | true =>
            have hzy : less z y = true := hless.trans z x y hzx hxy
            rcases List.mem_cons.1 hz with h | h
            · rw [h, hless.irrefl y] at hzy
              exact Bool.noConfusion hzy
            · rw [hy z h] at hzy
              exact Bool.noConfusion hzy
        · next hxy =>
          refine List.pairwise_cons.2 ⟨?_, ih hys⟩
          intro z hz
          rcases hmem x ys z hz with h | h
          · rw [h]
            simpa using hxy
          · exact hy z h
    induction s with
    | nil => exact List.Pairwise.nil
    | cons x xs ih => exact hins x _ ih

/-! ## Store operations -/

/-- AllBooks returns a slice of all books. -/
def AllBooks (srt : SortSlice) (Books : Store) : List Book :=
  -- the loop over the map fills `s` with the values in visiting order
  let s := Books.values
  srt.sort (fun a b => decide (a.Title < b.Title)) s

/-- CreateBook to be used for adding a book to the books dictionary. -/
def CreateBook (Books : Store) (b : Book) : (Book × Option Error) × Store :=
  if len b.Author < 1 ∨ len b.ISBN < 1 ∨ len b.Title < 1 then
    ((Book.zero, some Error.errMissingField), Books)
  else
    let isbn := b.ISBN
    let ok := (Books.index isbn).2
    if ok = true then
      ((Book.zero, some Error.errAlreadyExists), Books)
    else
      ((b, none), Books.set isbn b)

/-- GetBook returns the book for a given ISBN. -/
def GetBook (Books : Store) (isbn : GoString) : Book × Bool :=
  Books.index isbn

/-- UpdateBook will update a book. -/
def UpdateBook (Books : Store) (isbn : GoString) (b : Book) : (Book × Option Error) × Store :=
  if len b.Author < 1 ∨ len b.ISBN < 1 ∨ len b.Title < 1 then
    ((Book.zero, some Error.errMissingField), Books)
  else
    let ok := (Books.index isbn).2
    if ok then
      ((b, none), (Books.delete isbn).set b.ISBN b)
    else
      ((Book.zero, some Error.errDoesNotExist), Books)

/-- DeleteBook will delete the book from the books list. -/
def DeleteBook (Books : Store) (isbn : GoString) : (Book × Option Error) × Store :=
  let (b, ok) := Books.index isbn
  if ok then
    ((b, none), Books.delete isbn)
  else
    ((Book.zero, some Error.errDoesNotExist), Books)

/-- A call of one of the three mutating operations. -/
inductive Op where
  | create (b : Book)
  | update (isbn : GoString) (b : Book)
  | delete (isbn : GoString)

/-- The store after one call, whether it succeeded or failed. -/
def step (Books : Store) : Op → Store
  | .create b => (CreateBook Books b).2
  | .update isbn b => (UpdateBook Books isbn b).2
  | .delete isbn => (DeleteBook Books isbn).2

/-- The store after a sequence of calls, made in order. -/
def run (Books : Store) (ops : List Op) : Store := ops.foldl step Books

/-! ## JSON codec -/

/-- The three uses of `encoding/json` in the package: `json.Marshal` of a `Book`, of a
`[]Book`, and `json.Unmarshal` into a `Book`. `none` stands for a non-nil `err`. -/
structure JSON where
  MarshalBook : Book → Option GoString
  MarshalBooks : List Book → Option GoString
  Unmarshal : GoString → Option Book

/-- ToJSON to be used for marshalling of Book type; `none` is the `panic(err)`. -/
def ToJSON (J : JSON) (b : Book) : Option GoString :=
  match J.MarshalBook b with
  | none => none
  | some json => some json

/-- FromJSON to be used for unmarshalling of Book type; `none` is the `panic(err)`. -/
def FromJSON (J : JSON) (data : GoString) : Option Book :=
  match J.Unmarshal data with
  | none => none
  | some book => some book

/-- The object `encoding/json` writes for a book whose fields need no escaping:
`{"title":"T","author":"A","isbn":"I"}` (123 and 125 are the braces, 34 the double
quote, 58 the colon, 44 the comma). -/
def plainObject (b : Book) : GoString :=
  [123, 34] ++ lit "title" ++ [34, 58, 34] ++ b.Title ++ [34, 44, 34] ++
    lit "author" ++ [34, 58, 34] ++ b.Author ++ [34, 44, 34] ++
    lit "isbn" ++ [34, 58, 34] ++ b.ISBN ++ [34, 125]

/-- A codec given by finite tables, used to evaluate a handler at a concrete request:
a book, or a list of books, encodes to the document listed with it, a body decodes to
the book listed with it, and everything else is an error. -/
def tableJSON (books : List (GoString × Book)) (lists : List (GoString × List Book)) : JSON where
  MarshalBook b := (books.find? (fun e => decide (e.2 = b))).map Prod.fst
  MarshalBooks l := (lists.find? (fun e => decide (e.2 = l))).map Prod.fst
  Unmarshal d := (books.find? (fun e => decide (e.1 = d))).map Prod.snd

/-- The book `{A, B, 111}` of the test scenarios. -/
def bookA : Book := ⟨lit "A", lit "B", lit "111"⟩

/-- The seeded book `Cloud Native Go`. -/
def bookCNG : Book := ⟨lit "Cloud Native Go", lit "M. L. Reimer", lit "0123456789"⟩

/-- The seeded book `Hello World`. -/
def bookHW : Book := ⟨lit "Hello World", lit "E. Pavlova", lit "0987654321"⟩

/-- A codec that knows the documents of the three books above and of the seeded
listing (91 and 93 are the square brackets, 44 the comma). -/
def sampleJSON : JSON :=
  tableJSON
    [(plainObject bookA, bookA), (plainObject bookCNG, bookCNG), (plainObject bookHW, bookHW)]
    [([91] ++ plainObject bookCNG ++ [44] ++ plainObject bookHW ++ [93], [bookCNG, bookHW])]

/-! ## HTTP: requests and the response writer -/

/-- An `http.Header`: keys with their lists of values. -/
abbrev Header := List (GoString × List GoString)

/-- The values recorded under key `k`. -/
def Header.Values (h : Header) (k : GoString) : List GoString :=
  match h.find? (fun e => decide (e.1 = k)) with
  | some e => e.2
  | none => []

/-- Go `h.Set(k, v)`: `k` now has the single value `v`. -/
def Header.Set (h : Header) (k v : GoString) : Header :=
  (k, [v]) :: h.filter (fun e => decide (e.1 ≠ k))

/-- Go `h.Add(k, v)`: `v` is appended to the values of `k`. -/
def Header.Add (h : Header) (k v : GoString) : Header :=
  (k, h.Values k ++ [v]) :: h.filter (fun e => decide (e.1 ≠ k))

/-- The part of an `*http.Request` the handlers read. `Body` is what
`ioutil.ReadAll(r.Body)` yields, `none` when reading fails. -/
structure Request where
  Method : GoString
  Path : GoString
  Body : Option GoString

/-- An `http.ResponseWriter`. `header` is the map returned by `w.Header()`; the status
line goes out once, together with a snapshot of `header`, at the first `WriteHeader`
(or at the first `Write`, with status 200); later changes of `header` are not sent. -/
structure ResponseWriter where
  header : Header
  wroteHeader : Bool
  status : Nat
  sentHeader : Header
  body : GoString

/-- The writer a handler is started with. -/
def ResponseWriter.fresh : ResponseWriter := ⟨[], false, 0, [], []⟩

/-- Go `w.Header().Set(k, v)`. -/
def ResponseWriter.HeaderSet (w : ResponseWriter) (k v : GoString) : ResponseWriter :=
  { w with header := w.header.Set k v }

/-- Go `w.Header().Add(k, v)`. -/
def ResponseWriter.HeaderAdd (w : ResponseWriter) (k v : GoString) : ResponseWriter :=
  { w with header := w.header.Add k v }

/-- Go `w.WriteHeader(code)`; a second call has no effect. -/
def ResponseWriter.WriteHeader (w : ResponseWriter) (code : Nat) : ResponseWriter :=
  if w.wroteHeader then w
  else { w with wroteHeader := true, status := code, sentHeader := w.header }

/-- Go `w.Write(b)`; sends the status line with 200 first if none was sent. -/
def ResponseWriter.Write (w : ResponseWriter) (b : GoString) : ResponseWriter :=
  let w1 := if w.wroteHeader then w else w.WriteHeader 200
  { w1 with body := w1.body ++ b }

/-- What the server does when the handler returns: a handler that wrote nothing
answers 200 with an empty body. -/
def ResponseWriter.finish (w : ResponseWriter) : ResponseWriter :=
  if w.wroteHeader then w else w.WriteHeader 200

def StatusOK : Nat := 200
def StatusBadRequest : Nat := 400
def StatusNotFound : Nat := 404
def StatusConflict : Nat := 409
def StatusInternalServerError : Nat := 500

def MethodGet : GoString := lit "GET"
def MethodPost : GoString := lit "POST"
def MethodPut : GoString := lit "PUT"
def MethodDelete : GoString := lit "DELETE"
def MethodOptions : GoString := lit "OPTIONS"

/-- The result of running a handler: the writer, the store, and whether the handler
ended in a panic (in which case the server sends no response built by the handler). -/
structure Outcome where
  w : ResponseWriter
  Books : Store
  panicked : Bool

def setupCORS (w : ResponseWriter) : ResponseWriter :=
  let w := w.HeaderSet (lit "Access-Control-Allow-Origin") (lit "*")
  let w := w.HeaderSet (lit "Access-Control-Allow-Methods") (lit "POST, GET, OPTIONS, PUT, DELETE")
  w.HeaderSet (lit "Access-Control-Allow-Headers")
    (lit "Accept, Content-Type, Content-Length, Accept-Encoding, X-CSRF-Token, Authorization")

/-- BooksHandleFunc to be used as http.HandleFunc for Book API (get all books, or add
a book). -/
def BooksHandleFunc (J : JSON) (srt : SortSlice) (w : ResponseWriter) (r : Request)
    (Books : Store) : Outcome :=
  let w := setupCORS w
  if r.Method = MethodOptions then
    ⟨w.WriteHeader StatusOK, Books, false⟩
  else if r.Method = MethodGet then
    let books := AllBooks srt Books
    match J.MarshalBooks books with
    | none => ⟨w.WriteHeader StatusInternalServerError, Books, false⟩
    | some b =>
      let w := w.HeaderAdd (lit "Content-Type") (lit "application/json; charset-utf-8")
      ⟨w.Write b, Books, false⟩
  else if r.Method = MethodPost then
    match r.Body with
    | none => ⟨w.WriteHeader StatusInternalServerError, Books, false⟩
    | some body =>
      match FromJSON J body with
      | none => ⟨w, Books, true⟩
      | some book =>
        let res := CreateBook Books book
        match res.1.2 with
        | some err =>
          let w := w.WriteHeader StatusConflict
          if err = Error.errAlreadyExists then
            ⟨w.Write (lit "Item already exists"), res.2, false⟩
          else if err = Error.errMissingField then
            ⟨w.Write (lit "Item is missing a required field"), res.2, false⟩
          else
            ⟨w.Write (lit "There was an error creating the item"), res.2, false⟩
        | none =>
          match ToJSON J res.1.1 with
          | none => ⟨w, res.2, true⟩
          | some jsonB =>
            let w := w.WriteHeader StatusOK
            let w := w.HeaderAdd (lit "Content-Type") (lit "application/json; charset-utf-8")
            ⟨w.Write jsonB, res.2, false⟩
  else
    let w := w.WriteHeader StatusBadRequest
    ⟨w.Write (lit "Unsupported request method."), Books, false⟩

/-- BookHandleFunc to be used as http.HandleFunc for Book API (get a single book, or
edit a book, or delete a book). -/
def BookHandleFunc (J : JSON) (w : ResponseWriter) (r : Request) (Books : Store) : Outcome :=
  let w := w.HeaderSet (lit "Access-Control-Allow-Origin") (lit "*")
  -- `r.URL.Path[len("/api/books/"):]` panics on a path shorter than the prefix
  if len r.Path < len (lit "/api/books/") then ⟨w, Books, true⟩
  else
  let isbn := r.Path.drop (len (lit "/api/books/"))
  if r.Method = MethodGet then
    let (b, found) := GetBook Books isbn
    if found then
      match ToJSON J b with
      | none => ⟨w, Books, true⟩
      | some jsonB =>
        let w := w.WriteHeader StatusOK
        let w := w.HeaderAdd (lit "Content-Type") (lit "application/json; charset-utf-8")
        ⟨w.Write jsonB, Books, false⟩
    else
      let w := w.WriteHeader StatusNotFound
      ⟨w.Write (lit "Item was not found."), Books, false⟩
  else if r.Method = MethodPut then
    match r.Body with
    | none => ⟨w.WriteHeader StatusInternalServerError, Books, false⟩
    | some body =>
      match FromJSON J body with
      | none => ⟨w, Books, true⟩
      | some book =>
        let res := UpdateBook Books isbn book
        match res.1.2 with
        | some err =>
          let w := w.WriteHeader StatusConflict
          if err = Error.errDoesNotExist then
            ⟨w.Write (lit "Item does not exist"), res.2, false⟩
          else if err = Error.errMissingField then
            ⟨w.Write (lit "Item is missing a required field"), res.2, false⟩
          else
            ⟨w.Write (lit "There was an error modifying the item"), res.2, false⟩
        | none =>
          match ToJSON J res.1.1 with
          | none => ⟨w, res.2, true⟩
          | some jsonB =>
            let w := w.WriteHeader StatusOK
            let w := w.HeaderAdd (lit "Content-Type") (lit "application/json; charset-utf-8")
            ⟨w.Write jsonB, res.2, false⟩
  else if r.Method = MethodDelete then
    let res := DeleteBook Books isbn
    match res.1.2 with
    | some err =>
      let w := w.WriteHeader StatusConflict
      if err = Error.errDoesNotExist then
        ⟨w.Write (lit "Item does not exist"), res.2, false⟩
      else
        ⟨w.Write (lit "There was an error deleting the item"), res.2, false⟩
    | none =>
      match ToJSON J res.1.1 with
      | none => ⟨w, res.2, true⟩
      | some jsonB =>
        let w := w.WriteHeader StatusOK
        let w := w.HeaderAdd (lit "Content-Type") (lit "application/json; charset-utf-8")
        ⟨w.Write jsonB, res.2, false⟩
  else
    let w := w.WriteHeader StatusBadRequest
    ⟨w.Write (lit "Unsupported request method."), Books, false⟩

/-! ## Theorems -/

/-! ### The map primitives -/

theorem Store.find?_eq_some_iff (m : Store) (k : GoString) (b : Book) :
    m.find? k = some b ↔ (k, b) ∈ m.entries := by
  obtain ⟨l, hl⟩ := m
  simp only [Store.find?]
  induction l with
  | nil => simp
  | cons e l ih =>
    obtain ⟨k0, b0⟩ := e
    have hl0 : (l.map Prod.fst).Nodup := (List.nodup_cons.1 hl).2
    have hk0 : k0 ∉ l.map Prod.fst := (List.nodup_cons.1 hl).1
    by_cases hk : k0 = k
    · subst hk
      simp only [List.find?_cons, decide_True, Option.map_some', Option.some.injEq,
        List.mem_cons, Prod.mk.injEq, true_and]
      constructor
      · intro h; exact Or.inl h.symm
      · rintro (h | h)
        · exact h.symm
        · exact absurd (List.mem_map.2 ⟨(k0, b), h, rfl⟩) hk0
    · have hk1 : ¬ k = k0 := fun h => hk h.symm
      simp only [List.find?_cons, hk, decide_False, List.mem_cons, Prod.mk.injEq, hk1,
        false_and, false_or]
      exact ih hl0

theorem Store.find?_eq_none_iff (m : Store) (k : GoString) :
    m.find? k = none ↔ ∀ b, (k, b) ∉ m.entries := by
  constructor
  · intro h b hb
    rw [← Store.find?_eq_some_iff, h] at hb
    exact Option.noConfusion hb
  · intro h
    cases hf : m.find? k with
    | none => rfl
    | some b => exact absurd ((Store.find?_eq_some_iff m k b).1 hf) (h b)

theorem Store.mem_keys_iff (m : Store) (k : GoString) :
    k ∈ m.keys ↔ ∃ b, (k, b) ∈ m.entries := by
  simp [Store.keys]

theorem Store.not_mem_keys_iff (m : Store) (k : GoString) :
    k ∉ m.keys ↔ m.find? k = none := by
  rw [Store.find?_eq_none_iff, Store.mem_keys_iff]
  push_neg
  rfl

theorem Store.mem_delete (m : Store) (k : GoString) (e : GoString × Book) :
    e ∈ (m.delete k).entries ↔ e ∈ m.entries ∧ e.1 ≠ k := by
  simp [Store.delete, List.mem_filter]

theorem Store.mem_set (m : Store) (k : GoString) (v : Book) (e : GoString × Book) :
    e ∈ (m.set k v).entries ↔ e = (k, v) ∨ (e ∈ m.entries ∧ e.1 ≠ k) := by
  simp [Store.set, List.mem_filter]

theorem Store.find?_delete (m : Store) (k k1 : GoString) :
    (m.delete k).find? k1 = if k1 = k then none else m.find? k1 := by
  split
  · next h =>
    subst h
    rw [Store.find?_eq_none_iff]
    intro b hb
    exact ((Store.mem_delete m k1 _).1 hb).2 rfl
  · next h =>
    cases hf : m.find? k1 with
    | none =>
      rw [Store.find?_eq_none_iff] at hf ⊢
      intro b hb
      exact hf b ((Store.mem_delete m k _).1 hb).1
    | some b =>
      rw [Store.find?_eq_some_iff] at hf ⊢
      exact (Store.mem_delete m k _).2 ⟨hf, h⟩

theorem Store.find?_set (m : Store) (k k1 : GoString) (v : Book) :
    (m.set k v).find? k1 = if k1 = k then some v else m.find? k1 := by
  split
  · next h =>
    subst h
    rw [Store.find?_eq_some_iff]
    exact (Store.mem_set m k1 v _).2 (Or.inl rfl)
  · next h =>
    cases hf : m.find? k1 with
    | none =>
      rw [Store.find?_eq_none_iff] at hf ⊢
      intro b hb
      rcases (Store.mem_set m k v _).1 hb with h1 | h1
      · exact h (Prod.mk.inj h1).1
      · exact hf b h1.1
    | some b =>
      rw [Store.find?_eq_some_iff] at hf ⊢
      exact (Store.mem_set m k v _).2 (Or.inr ⟨hf, h⟩)

theorem Store.index_fst (m : Store) (k : GoString) :
    (m.index k).1 = (m.find? k).getD Book.zero := by
  unfold Store.index
  cases m.find? k <;> rfl

theorem Store.index_snd (m : Store) (k : GoString) :
    (m.index k).2 = (m.find? k).isSome := by
  unfold Store.index
  cases m.find? k <;> rfl

/-- Entries whose key is not `k` are all the entries when `k` is not a key. -/
theorem Store.filter_of_absent (m : Store) (k : GoString) (h : m.find? k = none) :
    m.entries.filter (fun e => decide (e.1 ≠ k)) = m.entries := by
  rw [List.filter_eq_self]
  intro e he
  rw [Store.find?_eq_none_iff] at h
  simp only [ne_eq, decide_not, Bool.not_eq_eq_eq_not, Bool.not_true, decide_eq_false_iff_not]
  intro hk
  exact h e.2 (by rw [← hk]; exact he)

theorem Store.size_set_of_absent (m : Store) (k : GoString) (v : Book)
    (h : m.find? k = none) : (m.set k v).size = m.size + 1 := by
  simp only [Store.size, Store.set, List.length_cons, Store.filter_of_absent m k h]

/-- Removing a key that is present removes exactly one entry. -/
theorem Store.size_delete_of_present (m : Store) (k : GoString) (b : Book)
    (h : m.find? k = some b) : (m.delete k).size + 1 = m.size := by
  obtain ⟨l, hl⟩ := m
  rw [Store.find?_eq_some_iff] at h
  simp only [Store.size, Store.delete] at h ⊢
  induction l with
  | nil => simp at h
  | cons e l ih =>
    have hl0 : (l.map Prod.fst).Nodup := (List.nodup_cons.1 hl).2
    have hk0 : e.1 ∉ l.map Prod.fst := (List.nodup_cons.1 hl).1
    rcases List.mem_cons.1 h with h1 | h1
    · subst h1
      have hrest : l.filter (fun e => decide (e.1 ≠ k)) = l := by
        rw [List.filter_eq_self]
        intro e he
        simp only [ne_eq, decide_not, Bool.not_eq_eq_eq_not, Bool.not_true,
          decide_eq_false_iff_not]
        intro hk
        exact hk0 (List.mem_map.2 ⟨e, he, hk⟩)
      rw [List.filter_cons_of_neg (by simp), hrest, List.length_cons]
    · have hne : e.1 ≠ k := by
        intro hk
        exact hk0 (List.mem_map.2 ⟨(k, b), h1, hk.symm⟩)
      simp only [List.filter_cons, ne_eq, hne, not_false_eq_true, decide_True, ↓reduceIte,
        List.length_cons]
      have := ih hl0 h1
      simp only [ne_eq] at this
      omega

/-! ### The three mutating operations, case by case -/

theorem len_lt_one (s : GoString) : len s < 1 ↔ s = [] := by
  cases s <;> simp [len]

theorem missing_iff (b : Book) :
    (len b.Author < 1 ∨ len b.ISBN < 1 ∨ len b.Title < 1) ↔
      (b.Title = [] ∨ b.Author = [] ∨ b.ISBN = []) := by
  simp only [len_lt_one]
  tauto

theorem CreateBook_missing (S : Store) (b : Book)
    (h : b.Title = [] ∨ b.Author = [] ∨ b.ISBN = []) :
    CreateBook S b = ((Book.zero, some Error.errMissingField), S) := by
  unfold CreateBook
  rw [if_pos ((missing_iff b).2 h)]

theorem CreateBook_present (S : Store) (b b0 : Book)
    (h : ¬ (b.Title = [] ∨ b.Author = [] ∨ b.ISBN = [])) (hk : S.find? b.ISBN = some b0) :
    CreateBook S b = ((Book.zero, some Error.errAlreadyExists), S) := by
  unfold CreateBook
  rw [if_neg (fun hm => h ((missing_iff b).1 hm))]
  simp [Store.index_snd, hk]

theorem CreateBook_absent (S : Store) (b : Book)
    (h : ¬ (b.Title = [] ∨ b.Author = [] ∨ b.ISBN = [])) (hk : S.find? b.ISBN = none) :
    CreateBook S b = ((b, none), S.set b.ISBN b) := by
  unfold CreateBook
  rw [if_neg (fun hm => h ((missing_iff b).1 hm))]
  simp [Store.index_snd, hk]

theorem UpdateBook_missing (S : Store) (isbn : GoString) (b : Book)
    (h : b.Title = [] ∨ b.Author = [] ∨ b.ISBN = []) :
    UpdateBook S isbn b = ((Book.zero, some Error.errMissingField), S) := by
  unfold UpdateBook
  rw [if_pos ((missing_iff b).2 h)]

theorem UpdateBook_absent (S : Store) (isbn : GoString) (b : Book)
    (h : ¬ (b.Title = [] ∨ b.Author = [] ∨ b.ISBN = [])) (hk : S.find? isbn = none) :
    UpdateBook S isbn b = ((Book.zero, some Error.errDoesNotExist), S) := by
  unfold UpdateBook
  rw [if_neg (fun hm => h ((missing_iff b).1 hm))]
  simp [Store.index_snd, hk]

theorem UpdateBook_present (S : Store) (isbn : GoString) (b b0 : Book)
    (h : ¬ (b.Title = [] ∨ b.Author = [] ∨ b.ISBN = [])) (hk : S.find? isbn = some b0) :
    UpdateBook S isbn b = ((b, none), (S.delete isbn).set b.ISBN b) := by
  unfold UpdateBook
  rw [if_neg (fun hm => h ((missing_iff b).1 hm))]
  simp [Store.index_snd, hk]

theorem DeleteBook_absent (S : Store) (isbn : GoString) (hk : S.find? isbn = none) :
    DeleteBook S isbn = ((Book.zero, some Error.errDoesNotExist), S) := by
  simp [DeleteBook, Store.index, hk]

theorem DeleteBook_present (S : Store) (isbn : GoString) (b0 : Book)
    (hk : S.find? isbn = some b0) :
    DeleteBook S isbn = ((b0, none), S.delete isbn) := by
  simp [DeleteBook, Store.index, hk]

/-- Every entry of the store after one call is an old entry, or the entry `b.ISBN -> b`
for a `b` with three non-empty fields. -/
theorem step_entries (S : Store) (op : Op) (e : GoString × Book)
    (he : e ∈ (step S op).entries) :
    e ∈ S.entries ∨ (e.1 = e.2.ISBN ∧ e.2.Title ≠ [] ∧ e.2.Author ≠ [] ∧ e.2.ISBN ≠ []) := by
  cases op with
  | create b =>
    simp only [step] at he
    by_cases hm : b.Title = [] ∨ b.Author = [] ∨ b.ISBN = []
    · rw [CreateBook_missing S b hm] at he
      exact Or.inl he
    · cases hk : S.find? b.ISBN with
      | some b0 =>
        rw [CreateBook_present S b b0 hm hk] at he
        exact Or.inl he
      | none =>
        rw [CreateBook_absent S b hm hk] at he
        rcases (Store.mem_set _ _ _ _).1 he with h1 | h1
        · subst h1
          push_neg at hm
          exact Or.inr ⟨rfl, hm⟩
        · exact Or.inl h1.1
  | update isbn b =>
    simp only [step] at he
    by_cases hm : b.Title = [] ∨ b.Author = [] ∨ b.ISBN = []
    · rw [UpdateBook_missing S isbn b hm] at he
      exact Or.inl he
    · cases hk : S.find? isbn with
      | none =>
        rw [UpdateBook_absent S isbn b hm hk] at he
        exact Or.inl he
      | some b0 =>
        rw [UpdateBook_present S isbn b b0 hm hk] at he
        rcases (Store.mem_set _ _ _ _).1 he with h1 | h1
        · subst h1
          push_neg at hm
          exact Or.inr ⟨rfl, hm⟩
        · exact Or.inl ((Store.mem_delete _ _ _).1 h1.1).1
  | delete isbn =>
    simp only [step] at he
    cases hk : S.find? isbn with
    | none =>
      rw [DeleteBook_absent S isbn hk] at he
      exact Or.inl he
    | some b0 =>
      rw [DeleteBook_present S isbn b0 hk] at he
      exact Or.inl ((Store.mem_delete _ _ _).1 he).1

/-- A property of the seeded store that every call preserves holds after every
sequence of calls. -/
theorem run_induction (P : Store → Prop) (h0 : P Books)
    (hs : ∀ S op, P S → P (step S op)) (ops : List Op) : P (run Books ops) := by
  have key : ∀ (ops : List Op) (S : Store), P S → P (run S ops) := by
    intro ops
    induction ops with
    | nil => intro S hS; exact hS
    | cons op ops ih => intro S hS; exact ih (step S op) (hs S op hS)
  exact key ops Books h0

/-- Every entry of a reachable store has its key equal to its ISBN and three
non-empty fields. -/
theorem run_entries (ops : List Op) :
    ∀ e ∈ (run Books ops).entries,
      e.1 = e.2.ISBN ∧ e.2.Title ≠ [] ∧ e.2.Author ≠ [] ∧ e.2.ISBN ≠ [] := by
  refine run_induction
    (fun S => ∀ e ∈ S.entries, e.1 = e.2.ISBN ∧ e.2.Title ≠ [] ∧ e.2.Author ≠ [] ∧ e.2.ISBN ≠ [])
    ?_ ?_ ops
  · decide
  · intro S op hS e he
    rcases step_entries S op e he with h | h
    · exact hS e h
    · exact h

/-! ### Invariants of the reachable stores -/

/-- C1. Key invariant: after any finite sequence of CreateBook, UpdateBook and
DeleteBook calls on the seeded store (any arguments, successful or failing), every
entry `k -> b` of the store has `k = b.ISBN`. -/
theorem key_invariant (ops : List Op) (k : GoString) (b : Book)
    (h : (k, b) ∈ (run Books ops).entries) : k = b.ISBN :=
  (run_entries ops (k, b) h).1

/-- C1, at the state right after an UpdateBook whose body ISBN (`555`) differs from
the path ISBN (`0123456789`): the record sits at key `555`. -/
theorem key_invariant_witness :
    (lit "555", (⟨lit "T", lit "A", lit "555"⟩ : Book)) ∈
        (run Books [Op.update (lit "0123456789") ⟨lit "T", lit "A", lit "555"⟩]).entries ∧
      lit "555" = (⟨lit "T", lit "A", lit "555"⟩ : Book).ISBN :=
  ⟨by decide, key_invariant [Op.update (lit "0123456789") ⟨lit "T", lit "A", lit "555"⟩]
    (lit "555") ⟨lit "T", lit "A", lit "555"⟩ (by decide)⟩

/-- C2. Non-empty-fields invariant: after any finite sequence of CreateBook,
UpdateBook and DeleteBook calls on the seeded store, every stored Book has a
non-empty Title, a non-empty Author and a non-empty ISBN. -/
theorem nonempty_fields_invariant (ops : List Op) (k : GoString) (b : Book)
    (h : (k, b) ∈ (run Books ops).entries) :
    b.Title ≠ [] ∧ b.Author ≠ [] ∧ b.ISBN ≠ [] :=
  (run_entries ops (k, b) h).2

/-- C2, at the store reached by a rejected create (empty title), an accepted create
and a delete. -/
theorem nonempty_fields_invariant_witness :
    (lit "111", (⟨lit "A", lit "B", lit "111"⟩ : Book)) ∈
        (run Books [Op.create ⟨[], lit "Y", lit "222"⟩, Op.create ⟨lit "A", lit "B", lit "111"⟩,
          Op.delete (lit "0987654321")]).entries ∧
      (lit "A" ≠ [] ∧ lit "B" ≠ [] ∧ lit "111" ≠ []) :=
  ⟨by decide, nonempty_fields_invariant
    [Op.create ⟨[], lit "Y", lit "222"⟩, Op.create ⟨lit "A", lit "B", lit "111"⟩,
      Op.delete (lit "0987654321")] (lit "111") ⟨lit "A", lit "B", lit "111"⟩ (by decide)⟩

/-! ### Specifications of the three mutating operations -/

/-- C3. CreateBook specification: for every store `S` and Book `b`, CreateBook
returns errMissingField if any of Title, Author, ISBN is empty; returns
errAlreadyExists if all three are non-empty and `S` has key `b.ISBN`; otherwise it
returns `(b, nil)` and the new store is `S` with the single entry `b.ISBN -> b` added
(all other keys keep their value, one more entry). Whitespace-only fields count as
non-empty: such a book is accepted by every store without its key. -/
theorem CreateBook_spec (S : Store) (b : Book) :
    ((b.Title = [] ∨ b.Author = [] ∨ b.ISBN = []) →
        (CreateBook S b).1.2 = some Error.errMissingField) ∧
    (b.Title ≠ [] → b.Author ≠ [] → b.ISBN ≠ [] → b.ISBN ∈ S.keys →
        (CreateBook S b).1.2 = some Error.errAlreadyExists) ∧
    (b.Title ≠ [] → b.Author ≠ [] → b.ISBN ≠ [] → b.ISBN ∉ S.keys →
        (CreateBook S b).1 = (b, none) ∧
        (∀ e, e ∈ (CreateBook S b).2.entries ↔ (e = (b.ISBN, b) ∨ e ∈ S.entries)) ∧
        (∀ k, (CreateBook S b).2.find? k = if k = b.ISBN then some b else S.find? k) ∧
        (CreateBook S b).2.size = S.size + 1) ∧
    (lit " " ∉ S.keys →
        (CreateBook S ⟨lit "  ", lit "   ", lit " "⟩).1 = (⟨lit "  ", lit "   ", lit " "⟩, none)) := by
  refine ⟨?_, ?_, ?_, ?_⟩
  · intro h
    rw [CreateBook_missing S b h]
  · intro ht ha hi hk
    obtain ⟨b0, hb0⟩ := (Store.mem_keys_iff _ _).1 hk
    have hm : ¬ (b.Title = [] ∨ b.Author = [] ∨ b.ISBN = []) := by tauto
    rw [CreateBook_present S b b0 hm ((Store.find?_eq_some_iff _ _ _).2 hb0)]
  · intro ht ha hi hk
    have hm : ¬ (b.Title = [] ∨ b.Author = [] ∨ b.ISBN = []) := by tauto
    have hf : S.find? b.ISBN = none := (Store.not_mem_keys_iff _ _).1 hk
    rw [CreateBook_absent S b hm hf]
    refine ⟨rfl, ?_, fun k => Store.find?_set S b.ISBN k b, Store.size_set_of_absent S _ b hf⟩
    intro e
    rw [Store.mem_set]
    constructor
    · rintro (h | h)
      · exact Or.inl h
      · exact Or.inr h.1
    · rintro (h | h)
      · exact Or.inl h
      · refine Or.inr ⟨h, fun hk1 => hk ?_⟩
        rw [← hk1]
        exact List.mem_map.2 ⟨e, h, rfl⟩
  · intro hk
    have hf : S.find? (lit " ") = none := (Store.not_mem_keys_iff _ _).1 hk
    rw [CreateBook_absent S ⟨lit "  ", lit "   ", lit " "⟩ (by decide) hf]

/-- C3 on the seeded store: `{"", Y, 111}` is rejected for a missing field,
`{X, Y, 0123456789}` because the ISBN exists, and the whitespace-only book
`{" ", " ", " "}` is created. -/
theorem CreateBook_spec_witness :
    (CreateBook Books ⟨[], lit "Y", lit "111"⟩).1.2 = some Error.errMissingField ∧
    (CreateBook Books ⟨lit "X", lit "Y", lit "0123456789"⟩).1.2
      = some Error.errAlreadyExists ∧
    ((CreateBook Books ⟨lit " ", lit " ", lit " "⟩).1 = (⟨lit " ", lit " ", lit " "⟩, none) ∧
      (CreateBook Books ⟨lit " ", lit " ", lit " "⟩).2.size = Books.size + 1) :=
  ⟨(CreateBook_spec Books ⟨[], lit "Y", lit "111"⟩).1 (Or.inl rfl),
   (CreateBook_spec Books ⟨lit "X", lit "Y", lit "0123456789"⟩).2.1
      (by decide) (by decide) (by decide) (by decide),
   ((CreateBook_spec Books ⟨lit " ", lit " ", lit " "⟩).2.2.1
      (by decide) (by decide) (by decide) (by decide)).1,
   ((CreateBook_spec Books ⟨lit " ", lit " ", lit " "⟩).2.2.1
      (by decide) (by decide) (by decide) (by decide)).2.2.2⟩

/-- C4. UpdateBook specification: for every store `S`, path key `isbn` and Book `b`,
UpdateBook returns errMissingField if any of Title, Author, ISBN of `b` is empty;
returns errDoesNotExist if all three are non-empty and `S` has no entry at `isbn`;
otherwise it returns `(b, nil)` and the new store is `S` with the entry at `isbn`
removed and then `b` stored at key `b.ISBN` (which may differ from `isbn`), every
other key unchanged. -/
theorem UpdateBook_spec (S : Store) (isbn : GoString) (b : Book) :
    ((b.Title = [] ∨ b.Author = [] ∨ b.ISBN = []) →
        (UpdateBook S isbn b).1.2 = some Error.errMissingField) ∧
    (b.Title ≠ [] → b.Author ≠ [] → b.ISBN ≠ [] → isbn ∉ S.keys →
        (UpdateBook S isbn b).1.2 = some Error.errDoesNotExist) ∧
    (b.Title ≠ [] → b.Author ≠ [] → b.ISBN ≠ [] → isbn ∈ S.keys →
        (UpdateBook S isbn b).1 = (b, none) ∧
        (UpdateBook S isbn b).2 = (S.delete isbn).set b.ISBN b ∧
        (∀ e, e ∈ (UpdateBook S isbn b).2.entries ↔
          (e = (b.ISBN, b) ∨ (e ∈ S.entries ∧ e.1 ≠ isbn ∧ e.1 ≠ b.ISBN))) ∧
        (∀ k, (UpdateBook S isbn b).2.find? k =
          if k = b.ISBN then some b else if k = isbn then none else S.find? k)) := by
  refine ⟨?_, ?_, ?_⟩
  · intro h
    rw [UpdateBook_missing S isbn b h]
  · intro ht ha hi hk
    have hm : ¬ (b.Title = [] ∨ b.Author = [] ∨ b.ISBN = []) := by tauto
    rw [UpdateBook_absent S isbn b hm ((Store.not_mem_keys_iff _ _).1 hk)]
  · intro ht ha hi hk
    obtain ⟨b0, hb0⟩ := (Store.mem_keys_iff _ _).1 hk
    have hm : ¬ (b.Title = [] ∨ b.Author = [] ∨ b.ISBN = []) := by tauto
    rw [UpdateBook_present S isbn b b0 hm ((Store.find?_eq_some_iff _ _ _).2 hb0)]
    refine ⟨rfl, rfl, ?_, ?_⟩
    · intro e
      rw [Store.mem_set, Store.mem_delete]
      tauto
    · intro k
      rw [Store.find?_set, Store.find?_delete]

/-- C4 on the seeded store: the update of `0123456789` to the second edition succeeds
and the record is found under its key; an update at the absent key `111` fails. -/
theorem UpdateBook_spec_witness :
    ((UpdateBook Books (lit "0123456789")
        ⟨lit "Cloud Native Go 2e", lit "M. L. Reimer", lit "0123456789"⟩).1
      = (⟨lit "Cloud Native Go 2e", lit "M. L. Reimer", lit "0123456789"⟩, none)) ∧
    ((UpdateBook Books (lit "0123456789")
        ⟨lit "Cloud Native Go 2e", lit "M. L. Reimer", lit "0123456789"⟩).2.find?
          (lit "0123456789")
      = some ⟨lit "Cloud Native Go 2e", lit "M. L. Reimer", lit "0123456789"⟩) ∧
    ((UpdateBook Books (lit "111") ⟨lit "T", lit "A", lit "111"⟩).1.2
      = some Error.errDoesNotExist) :=
  ⟨((UpdateBook_spec Books (lit "0123456789")
        ⟨lit "Cloud Native Go 2e", lit "M. L. Reimer", lit "0123456789"⟩).2.2
      (by decide) (by decide) (by decide) (by decide)).1,
   by
    rw [((UpdateBook_spec Books (lit "0123456789")
        ⟨lit "Cloud Native Go 2e", lit "M. L. Reimer", lit "0123456789"⟩).2.2
      (by decide) (by decide) (by decide) (by decide)).2.2.2
      (lit "0123456789")]
    rfl,
   (UpdateBook_spec Books (lit "111") ⟨lit "T", lit "A", lit "111"⟩).2.1
      (by decide) (by decide) (by decide) (by decide)⟩

/-- C5. DeleteBook specification: for every store `S` and key `isbn`, DeleteBook
returns errDoesNotExist if `S` has no entry at `isbn`; otherwise it returns
`(S[isbn], nil)`, the record that was stored, and the new store is `S` without key
`isbn` and with every other entry unchanged. -/
theorem DeleteBook_spec (S : Store) (isbn : GoString) :
    (isbn ∉ S.keys → (DeleteBook S isbn).1.2 = some Error.errDoesNotExist) ∧
    (∀ b0, (isbn, b0) ∈ S.entries →
        (DeleteBook S isbn).1 = (b0, none) ∧
        (∀ e, e ∈ (DeleteBook S isbn).2.entries ↔ (e ∈ S.entries ∧ e.1 ≠ isbn)) ∧
        (∀ k, (DeleteBook S isbn).2.find? k = if k = isbn then none else S.find? k) ∧
        (DeleteBook S isbn).2.size + 1 = S.size) := by
  refine ⟨?_, ?_⟩
  · intro hk
    rw [DeleteBook_absent S isbn ((Store.not_mem_keys_iff _ _).1 hk)]
  · intro b0 hb0
    have hf : S.find? isbn = some b0 := (Store.find?_eq_some_iff _ _ _).2 hb0
    rw [DeleteBook_present S isbn b0 hf]
    exact ⟨rfl, fun e => Store.mem_delete S isbn e, fun k => Store.find?_delete S isbn k,
      Store.size_delete_of_present S isbn b0 hf⟩

/-- C5 on the seeded store: deleting `0987654321` returns the stored record and
leaves one entry; deleting the absent `111` fails. -/
theorem DeleteBook_spec_witness :
    ((DeleteBook Books (lit "0987654321")).1
        = (⟨lit "Hello World", lit "E. Pavlova", lit "0987654321"⟩, none) ∧
      (DeleteBook Books (lit "0987654321")).2.size + 1 = Books.size) ∧
    (DeleteBook Books (lit "111")).1.2 = some Error.errDoesNotExist :=
  ⟨⟨((DeleteBook_spec Books (lit "0987654321")).2
        ⟨lit "Hello World", lit "E. Pavlova", lit "0987654321"⟩ (by decide)).1,
    ((DeleteBook_spec Books (lit "0987654321")).2
        ⟨lit "Hello World", lit "E. Pavlova", lit "0987654321"⟩ (by decide)).2.2.2⟩,
   (DeleteBook_spec Books (lit "111")).1 (by decide)⟩

/-! ### Listing -/

/-- The comparison `s[i].Title < s[j].Title` handed to `sort.Slice` is an ordering of
the kind the `sort` package asks for. -/
theorem lessTitle_ok : LessOK (fun a b : Book => decide (a.Title < b.Title)) where
  irrefl := by
    intro a
    simp
  trans := by
    intro a b c hab hbc
    simp only [decide_eq_true_eq] at hab hbc ⊢
    exact lt_trans hab hbc
  negTrans := by
    intro a b c hab hbc
    simp only [decide_eq_false_iff_not, not_lt] at hab hbc ⊢
    exact le_trans hbc hab

theorem AllBooks_pairwise (srt : SortSlice) (S : Store) :
    (AllBooks srt S).Pairwise (fun a b => a.Title ≤ b.Title) := by
  have h := srt.sorted (fun a b : Book => decide (a.Title < b.Title)) S.values lessTitle_ok
  refine List.Pairwise.imp ?_ h
  intro a b hab
  simpa using hab

theorem AllBooks_perm_values (srt : SortSlice) (S : Store) :
    (AllBooks srt S).Perm S.values :=
  srt.perm _ _

/-- C6. For every store, the sequence returned by AllBooks is in non-descending order
by Title under byte-wise comparison: for all indices `i < j`,
`result[i].Title <= result[j].Title`. -/
theorem AllBooks_nondescending (srt : SortSlice) (S : Store) (i j : Nat)
    (hi : i < (AllBooks srt S).length) (hj : j < (AllBooks srt S).length) (hij : i < j) :
    (AllBooks srt S)[i].Title ≤ (AllBooks srt S)[j].Title :=
  List.pairwise_iff_getElem.1 (AllBooks_pairwise srt S) i j hi hj hij

/-- C6 on the seeded store: the list has the two seeded books, "Cloud Native Go"
before "Hello World". -/
theorem AllBooks_nondescending_witness :
    (AllBooks insertionSortSlice Books).map Book.Title
        = [lit "Cloud Native Go", lit "Hello World"] ∧
      lit "Cloud Native Go" ≤ lit "Hello World" :=
  ⟨by decide, AllBooks_nondescending insertionSortSlice Books 0 1 (by decide) (by decide)
    (by decide)⟩

/-- With pairwise distinct titles the listing is strictly ascending, for any store. -/
theorem AllBooks_pairwise_lt (srt : SortSlice) (S : Store)
    (hd : (S.values.map Book.Title).Nodup) :
    (AllBooks srt S).Pairwise (fun a b => a.Title < b.Title) := by
  have hne : ((AllBooks srt S).map Book.Title).Nodup :=
    (((AllBooks_perm_values srt S).map Book.Title).nodup_iff).2 hd
  have hne1 : (AllBooks srt S).Pairwise (fun a b => a.Title ≠ b.Title) :=
    List.pairwise_map.1 hne
  refine List.Pairwise.imp ?_ ((AllBooks_pairwise srt S).and hne1)
  intro a b hab
  exact lt_of_le_of_ne hab.1 hab.2

/-- C7 fails as stated. After `CreateBook({Hello World, X, 111})` on the seeded store
two records have the Title "Hello World": with insertion sort the listing is
Cloud Native Go, Hello World, Hello World, and whatever routine implements
`sort.Slice`, the listing is not strictly ascending. -/
theorem AllBooks_strict_counterexample :
    (AllBooks insertionSortSlice
        (run Books [Op.create ⟨lit "Hello World", lit "X", lit "111"⟩])).map Book.Title
      = [lit "Cloud Native Go", lit "Hello World", lit "Hello World"] ∧
    (∀ srt : SortSlice, ¬ ∀ (i j : Nat)
      (hi : i < (AllBooks srt
        (run Books [Op.create ⟨lit "Hello World", lit "X", lit "111"⟩])).length)
      (hj : j < (AllBooks srt
        (run Books [Op.create ⟨lit "Hello World", lit "X", lit "111"⟩])).length)
      (_ : i < j),
      (AllBooks srt (run Books [Op.create ⟨lit "Hello World", lit "X", lit "111"⟩]))[i].Title
        < (AllBooks srt
            (run Books [Op.create ⟨lit "Hello World", lit "X", lit "111"⟩]))[j].Title) := by
  refine ⟨by decide, ?_⟩
  intro srt h
  have hp : (AllBooks srt
      (run Books [Op.create ⟨lit "Hello World", lit "X", lit "111"⟩])).Pairwise
        (fun a b => a.Title < b.Title) := List.pairwise_iff_getElem.2 h
  have hne : ((AllBooks srt
      (run Books [Op.create ⟨lit "Hello World", lit "X", lit "111"⟩])).map Book.Title).Nodup :=
    List.pairwise_map.2 (List.Pairwise.imp (fun hab => ne_of_lt hab) hp)
  have hd := (((AllBooks_perm_values srt
    (run Books [Op.create ⟨lit "Hello World", lit "X", lit "111"⟩])).map Book.Title).nodup_iff).1 hne
  revert hd
  decide

/-- C7, amended. For every store reachable from the seeded store through CreateBook,
UpdateBook and DeleteBook in which no two records have the same Title, the sequence
returned by AllBooks is strictly ascending by Title under byte-wise comparison: for
all indices `i < j`, `result[i].Title < result[j].Title`. -/
theorem AllBooks_strict_of_distinct_titles (srt : SortSlice) (ops : List Op)
    (hd : ((run Books ops).values.map Book.Title).Nodup) (i j : Nat)
    (hi : i < (AllBooks srt (run Books ops)).length)
    (hj : j < (AllBooks srt (run Books ops)).length) (hij : i < j) :
    (AllBooks srt (run Books ops))[i].Title < (AllBooks srt (run Books ops))[j].Title :=
  List.pairwise_iff_getElem.1 (AllBooks_pairwise_lt srt (run Books ops) hd) i j hi hj hij

/-- C7 amended, after `CreateBook({A, B, 111})` on the seeded store: the listing is
A, Cloud Native Go, Hello World, and A comes strictly before Cloud Native Go. -/
theorem AllBooks_strict_of_distinct_titles_witness :
    (AllBooks insertionSortSlice
        (run Books [Op.create ⟨lit "A", lit "B", lit "111"⟩])).map Book.Title
      = [lit "A", lit "Cloud Native Go", lit "Hello World"] ∧
    lit "A" < lit "Cloud Native Go" :=
  ⟨by decide, AllBooks_strict_of_distinct_titles insertionSortSlice
    [Op.create ⟨lit "A", lit "B", lit "111"⟩] (by decide) 0 1 (by decide) (by decide)
    (by decide)⟩

/-- C8. AllBooks returns all records and nothing else: for every store `S` the
returned sequence has as many elements as `S` has entries, it is a permutation of the
values of `S`, and each Book occurs in it once per key that maps to it. -/
theorem AllBooks_all_records (srt : SortSlice) (S : Store) :
    (AllBooks srt S).length = S.size ∧
    (AllBooks srt S).Perm (S.entries.map Prod.snd) ∧
    (∀ b, (AllBooks srt S).count b
      = (S.keys.filter (fun k => decide (S.find? k = some b))).length) := by
  have hp : (AllBooks srt S).Perm (S.entries.map Prod.snd) := AllBooks_perm_values srt S
  refine ⟨?_, hp, ?_⟩
  · rw [hp.length_eq, List.length_map]
    rfl
  · intro b
    rw [hp.count_eq, Store.keys, List.filter_map, List.length_map, List.count,
      List.countP_map, ← List.countP_eq_length_filter]
    apply List.countP_congr
    intro e he
    have hfe : S.find? e.1 = some e.2 := (Store.find?_eq_some_iff S e.1 e.2).2 he
    simp only [Function.comp, hfe, Option.some.injEq, beq_iff_eq, decide_eq_true_eq]

/-! ### Round trips -/

/-- C9. Create/Read round trip: for every store `S` and Book `b`, if `CreateBook(b)`
succeeds on `S`, then `GetBook(b.ISBN)` on the resulting store returns `(b, true)`,
so Title, Author and ISBN are those submitted. -/
theorem create_then_get (S : Store) (b : Book) (h : (CreateBook S b).1.2 = none) :
    GetBook (CreateBook S b).2 b.ISBN = (b, true) := by
  by_cases hm : b.Title = [] ∨ b.Author = [] ∨ b.ISBN = []
  · rw [CreateBook_missing S b hm] at h
    exact Option.noConfusion h
  · cases hk : S.find? b.ISBN with
    | some b0 =>
      rw [CreateBook_present S b b0 hm hk] at h
      exact Option.noConfusion h
    | none =>
      rw [CreateBook_absent S b hm hk]
      simp [GetBook, Store.index, Store.find?_set]

/-- C9 on the seeded store: create `{A, B, 111}`, then get `111`. -/
theorem create_then_get_witness :
    (CreateBook Books ⟨lit "A", lit "B", lit "111"⟩).1.2 = none ∧
    GetBook (CreateBook Books ⟨lit "A", lit "B", lit "111"⟩).2 (lit "111")
      = (⟨lit "A", lit "B", lit "111"⟩, true) :=
  ⟨by decide, create_then_get Books ⟨lit "A", lit "B", lit "111"⟩ (by decide)⟩

theorem path_not_short (isbn : GoString) :
    ¬ len (lit "/api/books/" ++ isbn) < len (lit "/api/books/") := by
  simp [len]

theorem path_isbn (isbn : GoString) :
    (lit "/api/books/" ++ isbn).drop (len (lit "/api/books/")) = isbn := by
  simp [len]

/-- The item handler on a DELETE of a key that is absent: 409, `Item does not exist`,
store untouched. -/
theorem BookHandleFunc_delete_absent (J : JSON) (body : Option GoString) (S : Store)
    (isbn : GoString) (hk : S.find? isbn = none) :
    BookHandleFunc J ResponseWriter.fresh ⟨MethodDelete, lit "/api/books/" ++ isbn, body⟩ S
      = ⟨((ResponseWriter.fresh.HeaderSet (lit "Access-Control-Allow-Origin") (lit "*")
            ).WriteHeader StatusConflict).Write (lit "Item does not exist"), S, false⟩ := by
  have hmg : MethodDelete ≠ MethodGet := by decide
  have hmp : MethodDelete ≠ MethodPut := by decide
  simp only [BookHandleFunc, if_neg (path_not_short isbn), path_isbn, if_neg hmg, if_neg hmp,
    if_true, DeleteBook_absent S isbn hk]

/-- The item handler on a GET of a key that is absent: 404, `Item was not found.`,
store untouched. -/
theorem BookHandleFunc_get_absent (J : JSON) (body : Option GoString) (S : Store)
    (isbn : GoString) (hk : S.find? isbn = none) :
    BookHandleFunc J ResponseWriter.fresh ⟨MethodGet, lit "/api/books/" ++ isbn, body⟩ S
      = ⟨((ResponseWriter.fresh.HeaderSet (lit "Access-Control-Allow-Origin") (lit "*")
            ).WriteHeader StatusNotFound).Write (lit "Item was not found."), S, false⟩ := by
  simp [BookHandleFunc, if_neg (path_not_short isbn), path_isbn, GetBook, Store.index, hk]

/-- C10. Delete is not idempotent: for every store `S` and key `isbn`, if
`DeleteBook(isbn)` succeeds on `S`, then on the resulting store a second
`DeleteBook(isbn)` fails with errDoesNotExist (the item handler answers DELETE with
409 and body `Item does not exist`) and `GetBook(isbn)` returns found = false (the
item handler answers GET with 404 and body `Item was not found.`). -/
theorem delete_twice (J : JSON) (body : Option GoString) (S : Store) (isbn : GoString)
    (h : (DeleteBook S isbn).1.2 = none) :
    (DeleteBook (DeleteBook S isbn).2 isbn).1.2 = some Error.errDoesNotExist ∧
    (GetBook (DeleteBook S isbn).2 isbn).2 = false ∧
    ((BookHandleFunc J ResponseWriter.fresh ⟨MethodDelete, lit "/api/books/" ++ isbn, body⟩
        (DeleteBook S isbn).2).w.status = 409 ∧
      (BookHandleFunc J ResponseWriter.fresh ⟨MethodDelete, lit "/api/books/" ++ isbn, body⟩
        (DeleteBook S isbn).2).w.body = lit "Item does not exist") ∧
    ((BookHandleFunc J ResponseWriter.fresh ⟨MethodGet, lit "/api/books/" ++ isbn, body⟩
        (DeleteBook S isbn).2).w.status = 404 ∧
      (BookHandleFunc J ResponseWriter.fresh ⟨MethodGet, lit "/api/books/" ++ isbn, body⟩
        (DeleteBook S isbn).2).w.body = lit "Item was not found.") := by
  cases hk : S.find? isbn with
  | none =>
    rw [DeleteBook_absent S isbn hk] at h
    exact Option.noConfusion h
  | some b0 =>
    rw [DeleteBook_present S isbn b0 hk]
    have hgone : (S.delete isbn).find? isbn = none := by
      rw [Store.find?_delete, if_pos rfl]
    refine ⟨?_, ?_, ?_, ?_⟩
    · rw [DeleteBook_absent _ isbn hgone]
    · simp [GetBook, Store.index, hgone]
    · rw [BookHandleFunc_delete_absent J body _ isbn hgone]
      exact ⟨rfl, rfl⟩
    · rw [BookHandleFunc_get_absent J body _ isbn hgone]
      exact ⟨rfl, rfl⟩

/-- C10 on the store reached by creating `{A, B, 111}`: the first delete of `111`
succeeds, the second fails, and the record is no longer found. -/
theorem delete_twice_witness :
    (DeleteBook (run Books [Op.create ⟨lit "A", lit "B", lit "111"⟩]) (lit "111")).1
      = (⟨lit "A", lit "B", lit "111"⟩, none) ∧
    (DeleteBook (DeleteBook (run Books [Op.create ⟨lit "A", lit "B", lit "111"⟩])
      (lit "111")).2 (lit "111")).1.2 = some Error.errDoesNotExist ∧
    (GetBook (DeleteBook (run Books [Op.create ⟨lit "A", lit "B", lit "111"⟩])
      (lit "111")).2 (lit "111")).2 = false ∧
    (BookHandleFunc ⟨fun _ => none, fun _ => none, fun _ => none⟩ ResponseWriter.fresh
      ⟨MethodDelete, lit "/api/books/" ++ lit "111", none⟩
      (DeleteBook (run Books [Op.create ⟨lit "A", lit "B", lit "111"⟩])
        (lit "111")).2).w.status = 409 :=
  ⟨by decide,
   (delete_twice ⟨fun _ => none, fun _ => none, fun _ => none⟩ none
      (run Books [Op.create ⟨lit "A", lit "B", lit "111"⟩]) (lit "111") (by decide)).1,
   (delete_twice ⟨fun _ => none, fun _ => none, fun _ => none⟩ none
      (run Books [Op.create ⟨lit "A", lit "B", lit "111"⟩]) (lit "111") (by decide)).2.1,
   (delete_twice ⟨fun _ => none, fun _ => none, fun _ => none⟩ none
      (run Books [Op.create ⟨lit "A", lit "B", lit "111"⟩]) (lit "111") (by decide)).2.2.1.1⟩

/-! ### Behaviour of the store operations on errors and collisions -/

theorem Store.size_set_of_present (m : Store) (k : GoString) (v b0 : Book)
    (h : m.find? k = some b0) : (m.set k v).size = m.size := by
  have hd := Store.size_delete_of_present m k b0 h
  simp only [Store.size, Store.delete] at hd
  simp only [Store.size, Store.set, List.length_cons]
  exact hd

/-- C17. Re-key collision overwrites: for every store `S`, keys `A != B` both present
in `S`, and Book `b` with non-empty fields and `b.ISBN == B`, `UpdateBook(A, b)`
succeeds without error; in the resulting store key `A` is absent, key `B` maps to `b`
(the previous record at `B` is lost), and there is one entry less than in `S`. -/
theorem rekey_collision (S : Store) (A B : GoString) (b : Book) (hAB : A ≠ B)
    (hA : A ∈ S.keys) (hB : B ∈ S.keys)
    (ht : b.Title ≠ []) (ha : b.Author ≠ []) (hi : b.ISBN ≠ []) (hb : b.ISBN = B) :
    (UpdateBook S A b).1 = (b, none) ∧
    A ∉ (UpdateBook S A b).2.keys ∧
    (UpdateBook S A b).2.find? B = some b ∧
    (∀ b0, (B, b0) ∈ (UpdateBook S A b).2.entries → b0 = b) ∧
    (UpdateBook S A b).2.size + 1 = S.size := by
  obtain ⟨a0, ha0⟩ := (Store.mem_keys_iff _ _).1 hA
  obtain ⟨b1, hb1⟩ := (Store.mem_keys_iff _ _).1 hB
  have hm : ¬ (b.Title = [] ∨ b.Author = [] ∨ b.ISBN = []) := by tauto
  have hfA : S.find? A = some a0 := (Store.find?_eq_some_iff _ _ _).2 ha0
  have hfB : S.find? B = some b1 := (Store.find?_eq_some_iff _ _ _).2 hb1
  rw [UpdateBook_present S A b a0 hm hfA, hb]
  have hfB1 : (S.delete A).find? B = some b1 := by
    rw [Store.find?_delete, if_neg (fun h => hAB h.symm)]
    exact hfB
  have hnew : ((S.delete A).set B b).find? B = some b := by
    rw [Store.find?_set, if_pos rfl]
  refine ⟨rfl, ?_, hnew, ?_, ?_⟩
  · rw [Store.not_mem_keys_iff, Store.find?_set, if_neg hAB, Store.find?_delete, if_pos rfl]
  · intro b0 hb0
    have h0 := (Store.find?_eq_some_iff _ _ _).2 hb0
    rw [hnew] at h0
    exact (Option.some.inj h0).symm
  · rw [Store.size_set_of_present (S.delete A) B b b1 hfB1]
    exact Store.size_delete_of_present S A a0 hfA

/-- C17 on the seeded store: updating `0123456789` with a book whose ISBN is
`0987654321` leaves a single entry, the new book at `0987654321`. -/
theorem rekey_collision_witness :
    (UpdateBook Books (lit "0123456789") ⟨lit "T", lit "A", lit "0987654321"⟩).1
      = (⟨lit "T", lit "A", lit "0987654321"⟩, none) ∧
    (UpdateBook Books (lit "0123456789") ⟨lit "T", lit "A", lit "0987654321"⟩).2.entries
      = [(lit "0987654321", ⟨lit "T", lit "A", lit "0987654321"⟩)] ∧
    (UpdateBook Books (lit "0123456789") ⟨lit "T", lit "A", lit "0987654321"⟩).2.size + 1
      = Books.size :=
  ⟨(rekey_collision Books (lit "0123456789") (lit "0987654321")
      ⟨lit "T", lit "A", lit "0987654321"⟩ (by decide) (by decide) (by decide) (by decide)
      (by decide) (by decide) rfl).1,
   by decide,
   (rekey_collision Books (lit "0123456789") (lit "0987654321")
      ⟨lit "T", lit "A", lit "0987654321"⟩ (by decide) (by decide) (by decide) (by decide)
      (by decide) (by decide) rfl).2.2.2.2⟩

/-- C18. Error atomicity: for every store `S` and all arguments, whenever CreateBook,
UpdateBook or DeleteBook returns a non-nil error, the store after the call is `S`
itself and the returned Book is the zero Book. -/
theorem error_atomicity (S : Store) (isbn : GoString) (b : Book) :
    ((CreateBook S b).1.2 ≠ none →
      (CreateBook S b).2 = S ∧ (CreateBook S b).1.1 = Book.zero) ∧
    ((UpdateBook S isbn b).1.2 ≠ none →
      (UpdateBook S isbn b).2 = S ∧ (UpdateBook S isbn b).1.1 = Book.zero) ∧
    ((DeleteBook S isbn).1.2 ≠ none →
      (DeleteBook S isbn).2 = S ∧ (DeleteBook S isbn).1.1 = Book.zero) := by
  refine ⟨?_, ?_, ?_⟩
  · by_cases hm : b.Title = [] ∨ b.Author = [] ∨ b.ISBN = []
    · rw [CreateBook_missing S b hm]
      exact fun _ => ⟨rfl, rfl⟩
    · cases hk : S.find? b.ISBN with
      | some b0 =>
        rw [CreateBook_present S b b0 hm hk]
        exact fun _ => ⟨rfl, rfl⟩
      | none =>
        rw [CreateBook_absent S b hm hk]
        exact fun h => absurd rfl h
  · by_cases hm : b.Title = [] ∨ b.Author = [] ∨ b.ISBN = []
    · rw [UpdateBook_missing S isbn b hm]
      exact fun _ => ⟨rfl, rfl⟩
    · cases hk : S.find? isbn with
      | none =>
        rw [UpdateBook_absent S isbn b hm hk]
        exact fun _ => ⟨rfl, rfl⟩
      | some b0 =>
        rw [UpdateBook_present S isbn b b0 hm hk]
        exact fun h => absurd rfl h
  · cases hk : S.find? isbn with
    | none =>
      rw [DeleteBook_absent S isbn hk]
      exact fun _ => ⟨rfl, rfl⟩
    | some b0 =>
      rw [DeleteBook_present S isbn b0 hk]
      exact fun h => absurd rfl h

/-- C18 on the seeded store: a create of an existing ISBN, an update with an empty
title and a delete of an absent key all fail, return the zero Book and leave the two
seeded entries in place. -/
theorem error_atomicity_witness :
    ((CreateBook Books ⟨lit "X", lit "Y", lit "0123456789"⟩).2 = Books ∧
      (CreateBook Books ⟨lit "X", lit "Y", lit "0123456789"⟩).1.1 = Book.zero) ∧
    ((UpdateBook Books (lit "0123456789") ⟨[], lit "Y", lit "0123456789"⟩).2 = Books ∧
      (UpdateBook Books (lit "0123456789") ⟨[], lit "Y", lit "0123456789"⟩).1.1 = Book.zero) ∧
    ((DeleteBook Books (lit "111")).2 = Books ∧
      (DeleteBook Books (lit "111")).1.1 = Book.zero) :=
  ⟨(error_atomicity Books (lit "111") ⟨lit "X", lit "Y", lit "0123456789"⟩).1 (by decide),
   (error_atomicity Books (lit "0123456789") ⟨[], lit "Y", lit "0123456789"⟩).2.1 (by decide),
   (error_atomicity Books (lit "111") ⟨lit "X", lit "Y", lit "0123456789"⟩).2.2 (by decide)⟩

/-- C19. Validation takes precedence over existence checks: for every store `S` and
Book `b` with at least one empty field, `CreateBook(b)` returns errMissingField even
when `S` already contains key `b.ISBN`, and `UpdateBook(isbn, b)` returns
errMissingField even when `S` has no entry at `isbn`; the result is the same on every
other store. -/
theorem validation_first (S : Store) (isbn : GoString) (b : Book)
    (h : b.Title = [] ∨ b.Author = [] ∨ b.ISBN = []) :
    (CreateBook S b).1.2 = some Error.errMissingField ∧
    (UpdateBook S isbn b).1.2 = some Error.errMissingField ∧
    (∀ S1 : Store, (CreateBook S1 b).1 = (CreateBook S b).1 ∧
      (UpdateBook S1 isbn b).1 = (UpdateBook S isbn b).1) := by
  refine ⟨?_, ?_, ?_⟩
  · rw [CreateBook_missing S b h]
  · rw [UpdateBook_missing S isbn b h]
  · intro S1
    rw [CreateBook_missing S b h, CreateBook_missing S1 b h, UpdateBook_missing S isbn b h,
      UpdateBook_missing S1 isbn b h]
    exact ⟨rfl, rfl⟩

/-- C19 on the seeded store: a book without title whose ISBN `0123456789` is already
stored is rejected by CreateBook for the missing field, and so is an update with it at
the absent key `111`. -/
theorem validation_first_witness :
    lit "0123456789" ∈ Books.keys ∧ lit "111" ∉ Books.keys ∧
    (CreateBook Books ⟨[], lit "Y", lit "0123456789"⟩).1.2 = some Error.errMissingField ∧
    (UpdateBook Books (lit "111") ⟨[], lit "Y", lit "0123456789"⟩).1.2
      = some Error.errMissingField :=
  ⟨by decide, by decide,
   (validation_first Books (lit "111") ⟨[], lit "Y", lit "0123456789"⟩ (Or.inl rfl)).1,
   (validation_first Books (lit "111") ⟨[], lit "Y", lit "0123456789"⟩ (Or.inl rfl)).2.1⟩

/-! ### The handlers, branch by branch -/

theorem ToJSON_eq (J : JSON) (b : Book) : ToJSON J b = J.MarshalBook b := by
  unfold ToJSON
  cases J.MarshalBook b <;> rfl

theorem FromJSON_eq (J : JSON) (data : GoString) : FromJSON J data = J.Unmarshal data := by
  unfold FromJSON
  cases J.Unmarshal data <;> rfl

theorem BooksHandleFunc_options (J : JSON) (srt : SortSlice) (path : GoString)
    (body : Option GoString) (S : Store) :
    BooksHandleFunc J srt ResponseWriter.fresh ⟨MethodOptions, path, body⟩ S
      = ⟨(setupCORS ResponseWriter.fresh).WriteHeader StatusOK, S, false⟩ := by
  simp only [BooksHandleFunc, if_true]

theorem BooksHandleFunc_get_ok (J : JSON) (srt : SortSlice) (path : GoString)
    (body : Option GoString) (S : Store) (j : GoString)
    (hj : J.MarshalBooks (AllBooks srt S) = some j) :
    BooksHandleFunc J srt ResponseWriter.fresh ⟨MethodGet, path, body⟩ S
      = ⟨((setupCORS ResponseWriter.fresh).HeaderAdd (lit "Content-Type")
            (lit "application/json; charset-utf-8")).Write j, S, false⟩ := by
  have h1 : MethodGet ≠ MethodOptions := by decide
  simp only [BooksHandleFunc, if_neg h1, if_true, hj]

theorem BooksHandleFunc_get_fail (J : JSON) (srt : SortSlice) (path : GoString)
    (body : Option GoString) (S : Store) (hj : J.MarshalBooks (AllBooks srt S) = none) :
    BooksHandleFunc J srt ResponseWriter.fresh ⟨MethodGet, path, body⟩ S
      = ⟨(setupCORS ResponseWriter.fresh).WriteHeader StatusInternalServerError, S, false⟩ := by
  have h1 : MethodGet ≠ MethodOptions := by decide
  simp only [BooksHandleFunc, if_neg h1, if_true, hj]

theorem BooksHandleFunc_post_unread (J : JSON) (srt : SortSlice) (path : GoString) (S : Store) :
    BooksHandleFunc J srt ResponseWriter.fresh ⟨MethodPost, path, none⟩ S
      = ⟨(setupCORS ResponseWriter.fresh).WriteHeader StatusInternalServerError, S, false⟩ := by
  have h1 : MethodPost ≠ MethodOptions := by decide
  have h2 : MethodPost ≠ MethodGet := by decide
  simp only [BooksHandleFunc, if_neg h1, if_neg h2, if_true]

theorem BooksHandleFunc_post_undecoded (J : JSON) (srt : SortSlice) (path body : GoString)
    (S : Store) (hd : FromJSON J body = none) :
    BooksHandleFunc J srt ResponseWriter.fresh ⟨MethodPost, path, some body⟩ S
      = ⟨setupCORS ResponseWriter.fresh, S, true⟩ := by
  have h1 : MethodPost ≠ MethodOptions := by decide
  have h2 : MethodPost ≠ MethodGet := by decide
  simp only [BooksHandleFunc, if_neg h1, if_neg h2, if_true, hd]

theorem BooksHandleFunc_post_error (J : JSON) (srt : SortSlice) (path body : GoString)
    (S : Store) (book : Book) (e : Error) (hd : FromJSON J body = some book)
    (he : (CreateBook S book).1.2 = some e) :
    BooksHandleFunc J srt ResponseWriter.fresh ⟨MethodPost, path, some body⟩ S
      = ⟨((setupCORS ResponseWriter.fresh).WriteHeader StatusConflict).Write
          (if e = Error.errAlreadyExists then lit "Item already exists"
            else if e = Error.errMissingField then lit "Item is missing a required field"
            else lit "There was an error creating the item"),
          (CreateBook S book).2, false⟩ := by
  have h1 : MethodPost ≠ MethodOptions := by decide
  have h2 : MethodPost ≠ MethodGet := by decide
  simp only [BooksHandleFunc, if_neg h1, if_neg h2, if_true, hd, he]
  cases e <;> simp

theorem BooksHandleFunc_post_ok (J : JSON) (srt : SortSlice) (path body : GoString)
    (S : Store) (book : Book) (hd : FromJSON J body = some book)
    (he : (CreateBook S book).1.2 = none) :
    BooksHandleFunc J srt ResponseWriter.fresh ⟨MethodPost, path, some body⟩ S
      = match J.MarshalBook (CreateBook S book).1.1 with
        | none => ⟨setupCORS ResponseWriter.fresh, (CreateBook S book).2, true⟩
        | some j =>
          ⟨(((setupCORS ResponseWriter.fresh).WriteHeader StatusOK).HeaderAdd
              (lit "Content-Type") (lit "application/json; charset-utf-8")).Write j,
            (CreateBook S book).2, false⟩ := by
  have h1 : MethodPost ≠ MethodOptions := by decide
  have h2 : MethodPost ≠ MethodGet := by decide
  simp only [BooksHandleFunc, if_neg h1, if_neg h2, if_true, hd, he, ToJSON_eq]

theorem BooksHandleFunc_other (J : JSON) (srt : SortSlice) (r : Request) (S : Store)
    (h1 : r.Method ≠ MethodOptions) (h2 : r.Method ≠ MethodGet) (h3 : r.Method ≠ MethodPost) :
    BooksHandleFunc J srt ResponseWriter.fresh r S
      = ⟨((setupCORS ResponseWriter.fresh).WriteHeader StatusBadRequest).Write
          (lit "Unsupported request method."), S, false⟩ := by
  simp only [BooksHandleFunc, if_neg h1, if_neg h2, if_neg h3]

theorem BookHandleFunc_get_present (J : JSON) (body : Option GoString) (S : Store)
    (isbn : GoString) (b : Book) (hk : S.find? isbn = some b) :
    BookHandleFunc J ResponseWriter.fresh ⟨MethodGet, lit "/api/books/" ++ isbn, body⟩ S
      = match J.MarshalBook b with
        | none =>
          ⟨ResponseWriter.fresh.HeaderSet (lit "Access-Control-Allow-Origin") (lit "*"), S, true⟩
        | some j =>
          ⟨(((ResponseWriter.fresh.HeaderSet (lit "Access-Control-Allow-Origin") (lit "*")
              ).WriteHeader StatusOK).HeaderAdd (lit "Content-Type")
              (lit "application/json; charset-utf-8")).Write j, S, false⟩ := by
  simp only [BookHandleFunc, if_neg (path_not_short isbn), path_isbn, if_true, GetBook,
    Store.index, hk, ToJSON_eq]

theorem BookHandleFunc_put_unread (J : JSON) (S : Store) (isbn : GoString) :
    BookHandleFunc J ResponseWriter.fresh ⟨MethodPut, lit "/api/books/" ++ isbn, none⟩ S
      = ⟨(ResponseWriter.fresh.HeaderSet (lit "Access-Control-Allow-Origin") (lit "*")
            ).WriteHeader StatusInternalServerError, S, false⟩ := by
  have h1 : MethodPut ≠ MethodGet := by decide
  simp only [BookHandleFunc, if_neg (path_not_short isbn), path_isbn, if_neg h1, if_true]

theorem BookHandleFunc_put_undecoded (J : JSON) (body : GoString) (S : Store)
    (isbn : GoString) (hd : FromJSON J body = none) :
    BookHandleFunc J ResponseWriter.fresh ⟨MethodPut, lit "/api/books/" ++ isbn, some body⟩ S
      = ⟨ResponseWriter.fresh.HeaderSet (lit "Access-Control-Allow-Origin") (lit "*"),
          S, true⟩ := by
  have h1 : MethodPut ≠ MethodGet := by decide
  simp only [BookHandleFunc, if_neg (path_not_short isbn), path_isbn, if_neg h1, if_true, hd]

theorem BookHandleFunc_put_error (J : JSON) (body : GoString) (S : Store) (isbn : GoString)
    (book : Book) (e : Error) (hd : FromJSON J body = some book)
    (he : (UpdateBook S isbn book).1.2 = some e) :
    BookHandleFunc J ResponseWriter.fresh ⟨MethodPut, lit "/api/books/" ++ isbn, some body⟩ S
      = ⟨((ResponseWriter.fresh.HeaderSet (lit "Access-Control-Allow-Origin") (lit "*")
            ).WriteHeader StatusConflict).Write
          (if e = Error.errDoesNotExist then lit "Item does not exist"
            else if e = Error.errMissingField then lit "Item is missing a required field"
            else lit "There was an error modifying the item"),
          (UpdateBook S isbn book).2, false⟩ := by
  have h1 : MethodPut ≠ MethodGet := by decide
  simp only [BookHandleFunc, if_neg (path_not_short isbn), path_isbn, if_neg h1, if_true, hd,
    he]
  cases e <;> simp

theorem BookHandleFunc_put_ok (J : JSON) (body : GoString) (S : Store) (isbn : GoString)
    (book : Book) (hd : FromJSON J body = some book)
    (he : (UpdateBook S isbn book).1.2 = none) :
    BookHandleFunc J ResponseWriter.fresh ⟨MethodPut, lit "/api/books/" ++ isbn, some body⟩ S
      = match J.MarshalBook (UpdateBook S isbn book).1.1 with
        | none =>
          ⟨ResponseWriter.fresh.HeaderSet (lit "Access-Control-Allow-Origin") (lit "*"),
            (UpdateBook S isbn book).2, true⟩
        | some j =>
          ⟨(((ResponseWriter.fresh.HeaderSet (lit "Access-Control-Allow-Origin") (lit "*")
              ).WriteHeader StatusOK).HeaderAdd (lit "Content-Type")
              (lit "application/json; charset-utf-8")).Write j,
            (UpdateBook S isbn book).2, false⟩ := by
  have h1 : MethodPut ≠ MethodGet := by decide
  simp only [BookHandleFunc, if_neg (path_not_short isbn), path_isbn, if_neg h1, if_true, hd,
    he, ToJSON_eq]

theorem BookHandleFunc_delete_present (J : JSON) (body : Option GoString) (S : Store)
    (isbn : GoString) (b : Book) (hk : S.find? isbn = some b) :
    BookHandleFunc J ResponseWriter.fresh ⟨MethodDelete, lit "/api/books/" ++ isbn, body⟩ S
      = match J.MarshalBook b with
        | none =>
          ⟨ResponseWriter.fresh.HeaderSet (lit "Access-Control-Allow-Origin") (lit "*"),
            S.delete isbn, true⟩
        | some j =>
          ⟨(((ResponseWriter.fresh.HeaderSet (lit "Access-Control-Allow-Origin") (lit "*")
              ).WriteHeader StatusOK).HeaderAdd (lit "Content-Type")
              (lit "application/json; charset-utf-8")).Write j, S.delete isbn, false⟩ := by
  have hmg : MethodDelete ≠ MethodGet := by decide
  have hmp : MethodDelete ≠ MethodPut := by decide
  simp only [BookHandleFunc, if_neg (path_not_short isbn), path_isbn, if_neg hmg, if_neg hmp,
    if_true, DeleteBook_present S isbn b hk, ToJSON_eq]

theorem BookHandleFunc_other (J : JSON) (m : GoString) (body : Option GoString) (S : Store)
    (isbn : GoString) (h1 : m ≠ MethodGet) (h2 : m ≠ MethodPut) (h3 : m ≠ MethodDelete) :
    BookHandleFunc J ResponseWriter.fresh ⟨m, lit "/api/books/" ++ isbn, body⟩ S
      = ⟨((ResponseWriter.fresh.HeaderSet (lit "Access-Control-Allow-Origin") (lit "*")
            ).WriteHeader StatusBadRequest).Write (lit "Unsupported request method."),
          S, false⟩ := by
  simp only [BookHandleFunc, if_neg (path_not_short isbn), path_isbn, if_neg h1, if_neg h2,
    if_neg h3]

/-! ### The endpoints -/

/-- C11. Item endpoint GET: for every store `S` and path key `isbn`, BookHandleFunc
with method GET answers 200 with the JSON encoding of `S[isbn]` as body if `S`
contains `isbn`, and otherwise 404 with body `Item was not found.`; in both cases the
store is left unchanged. -/
theorem item_get (J : JSON) (body : Option GoString) (S : Store) (isbn : GoString)
    (o : Outcome)
    (ho : o = BookHandleFunc J ResponseWriter.fresh
      ⟨MethodGet, lit "/api/books/" ++ isbn, body⟩ S) :
    (∀ b j, (isbn, b) ∈ S.entries → J.MarshalBook b = some j →
      o.w.status = 200 ∧ o.w.body = j ∧ o.panicked = false) ∧
    (isbn ∉ S.keys →
      o.w.status = 404 ∧ o.w.body = lit "Item was not found." ∧ o.panicked = false) ∧
    o.Books = S := by
  subst ho
  refine ⟨?_, ?_, ?_⟩
  · intro b j hb hj
    rw [BookHandleFunc_get_present J body S isbn b ((Store.find?_eq_some_iff _ _ _).2 hb), hj]
    exact ⟨rfl, rfl, rfl⟩
  · intro hk
    rw [BookHandleFunc_get_absent J body S isbn ((Store.not_mem_keys_iff _ _).1 hk)]
    exact ⟨rfl, rfl, rfl⟩
  · cases hk : S.find? isbn with
    | none => rw [BookHandleFunc_get_absent J body S isbn hk]
    | some b =>
      rw [BookHandleFunc_get_present J body S isbn b hk]
      cases J.MarshalBook b <;> rfl

/-- C11 on the seeded store: GET of `0123456789` answers 200 with the encoded record,
GET of `111` answers 404. -/
theorem item_get_witness :
    ((BookHandleFunc
        (tableJSON [(plainObject ⟨lit "Cloud Native Go", lit "M. L. Reimer", lit "0123456789"⟩,
          ⟨lit "Cloud Native Go", lit "M. L. Reimer", lit "0123456789"⟩)] [])
        ResponseWriter.fresh ⟨MethodGet, lit "/api/books/" ++ lit "0123456789", none⟩
        Books).w.status = 200 ∧
      (BookHandleFunc
        (tableJSON [(plainObject ⟨lit "Cloud Native Go", lit "M. L. Reimer", lit "0123456789"⟩,
          ⟨lit "Cloud Native Go", lit "M. L. Reimer", lit "0123456789"⟩)] [])
        ResponseWriter.fresh ⟨MethodGet, lit "/api/books/" ++ lit "0123456789", none⟩
        Books).w.body
        = plainObject ⟨lit "Cloud Native Go", lit "M. L. Reimer", lit "0123456789"⟩ ∧
      (BookHandleFunc
        (tableJSON [(plainObject ⟨lit "Cloud Native Go", lit "M. L. Reimer", lit "0123456789"⟩,
          ⟨lit "Cloud Native Go", lit "M. L. Reimer", lit "0123456789"⟩)] [])
        ResponseWriter.fresh ⟨MethodGet, lit "/api/books/" ++ lit "0123456789", none⟩
        Books).panicked = false) ∧
    ((BookHandleFunc (tableJSON [] []) ResponseWriter.fresh
        ⟨MethodGet, lit "/api/books/" ++ lit "111", none⟩ Books).w.status = 404 ∧
      (BookHandleFunc (tableJSON [] []) ResponseWriter.fresh
        ⟨MethodGet, lit "/api/books/" ++ lit "111", none⟩ Books).w.body
        = lit "Item was not found." ∧
      (BookHandleFunc (tableJSON [] []) ResponseWriter.fresh
        ⟨MethodGet, lit "/api/books/" ++ lit "111", none⟩ Books).panicked = false) :=
  ⟨(item_get _ none Books (lit "0123456789") _ rfl).1
      ⟨lit "Cloud Native Go", lit "M. L. Reimer", lit "0123456789"⟩
      (plainObject ⟨lit "Cloud Native Go", lit "M. L. Reimer", lit "0123456789"⟩)
      (by decide) (by decide),
   (item_get (tableJSON [] []) none Books (lit "111") _ rfl).2.1 (by decide)⟩

/-- C12. Domain-error mapping: for POST on the collection endpoint and for PUT and
DELETE on the item endpoint, whenever the underlying store operation fails with error
`e`, the response status is 409 and the body is the text of `e`: `Item already exists`
for AlreadyExists, `Item is missing a required field` for MissingField and
`Item does not exist` for DoesNotExist. The fallback bodies
(`There was an error creating/modifying/deleting the item`) are not produced: CreateBook
never fails with DoesNotExist, UpdateBook never with AlreadyExists, and DeleteBook only
with DoesNotExist. -/
theorem domain_error_mapping (J : JSON) (srt : SortSlice) (S : Store)
    (path isbn body : GoString) (anyBody : Option GoString) (book : Book) (e : Error) :
    (Error.errAlreadyExists.text = lit "Item already exists" ∧
      Error.errMissingField.text = lit "Item is missing a required field" ∧
      Error.errDoesNotExist.text = lit "Item does not exist") ∧
    (FromJSON J body = some book → (CreateBook S book).1.2 = some e →
      (BooksHandleFunc J srt ResponseWriter.fresh ⟨MethodPost, path, some body⟩ S).w.status
        = 409 ∧
      (BooksHandleFunc J srt ResponseWriter.fresh ⟨MethodPost, path, some body⟩ S).w.body
        = e.text ∧
      e ≠ Error.errDoesNotExist ∧
      (BooksHandleFunc J srt ResponseWriter.fresh ⟨MethodPost, path, some body⟩ S).w.body
        ≠ lit "There was an error creating the item") ∧
    (FromJSON J body = some book → (UpdateBook S isbn book).1.2 = some e →
      (BookHandleFunc J ResponseWriter.fresh
        ⟨MethodPut, lit "/api/books/" ++ isbn, some body⟩ S).w.status = 409 ∧
      (BookHandleFunc J ResponseWriter.fresh
        ⟨MethodPut, lit "/api/books/" ++ isbn, some body⟩ S).w.body = e.text ∧
      e ≠ Error.errAlreadyExists ∧
      (BookHandleFunc J ResponseWriter.fresh
        ⟨MethodPut, lit "/api/books/" ++ isbn, some body⟩ S).w.body
        ≠ lit "There was an error modifying the item") ∧
    ((DeleteBook S isbn).1.2 = some e →
      (BookHandleFunc J ResponseWriter.fresh
        ⟨MethodDelete, lit "/api/books/" ++ isbn, anyBody⟩ S).w.status = 409 ∧
      (BookHandleFunc J ResponseWriter.fresh
        ⟨MethodDelete, lit "/api/books/" ++ isbn, anyBody⟩ S).w.body = e.text ∧
      e = Error.errDoesNotExist ∧
      (BookHandleFunc J ResponseWriter.fresh
        ⟨MethodDelete, lit "/api/books/" ++ isbn, anyBody⟩ S).w.body
        ≠ lit "There was an error deleting the item") := by
  refine ⟨⟨rfl, rfl, rfl⟩, ?_, ?_, ?_⟩
  · intro hd he
    rw [BooksHandleFunc_post_error J srt path body S book e hd he]
    have hne : e ≠ Error.errDoesNotExist := by
      intro h
      subst h
      by_cases hm : book.Title = [] ∨ book.Author = [] ∨ book.ISBN = []
      · rw [CreateBook_missing S book hm] at he
        exact absurd (Option.some.inj he) (by decide)
      · cases hk : S.find? book.ISBN with
        | some b0 =>
          rw [CreateBook_present S book b0 hm hk] at he
          exact absurd (Option.some.inj he) (by decide)
        | none =>
          rw [CreateBook_absent S book hm hk] at he
          exact Option.noConfusion he
    cases e with
    | errAlreadyExists =>
      exact ⟨rfl, rfl, hne,
        show lit "Item already exists" ≠ lit "There was an error creating the item" by decide⟩
    | errMissingField =>
      exact ⟨rfl, rfl, hne,
        show lit "Item is missing a required field"
          ≠ lit "There was an error creating the item" by decide⟩
    | errDoesNotExist => exact absurd rfl hne
  · intro hd he
    rw [BookHandleFunc_put_error J body S isbn book e hd he]
    have hne : e ≠ Error.errAlreadyExists := by
      intro h
      subst h
      by_cases hm : book.Title = [] ∨ book.Author = [] ∨ book.ISBN = []
      · rw [UpdateBook_missing S isbn book hm] at he
        exact absurd (Option.some.inj he) (by decide)
      · cases hk : S.find? isbn with
        | none =>
          rw [UpdateBook_absent S isbn book hm hk] at he
          exact absurd (Option.some.inj he) (by decide)
        | some b0 =>
          rw [UpdateBook_present S isbn book b0 hm hk] at he
          exact Option.noConfusion he
    cases e with
    | errAlreadyExists => exact absurd rfl hne
    | errMissingField =>
      exact ⟨rfl, rfl, hne,
        show lit "Item is missing a required field"
          ≠ lit "There was an error modifying the item" by decide⟩
    | errDoesNotExist =>
      exact ⟨rfl, rfl, hne,
        show lit "Item does not exist" ≠ lit "There was an error modifying the item" by decide⟩
  · intro he
    cases hk : S.find? isbn with
    | none =>
      rw [DeleteBook_absent S isbn hk] at he
      have hee : e = Error.errDoesNotExist := (Option.some.inj he).symm
      subst hee
      rw [BookHandleFunc_delete_absent J anyBody S isbn hk]
      exact ⟨rfl, rfl, rfl,
        show lit "Item does not exist" ≠ lit "There was an error deleting the item" by decide⟩
    | some b0 =>
      rw [DeleteBook_present S isbn b0 hk] at he
      exact Option.noConfusion he

/-- C12 on the seeded store: POST of `{X, Y, 0123456789}` answers 409
`Item already exists`, PUT of `{"", Y, 111}` at `111` answers 409
`Item is missing a required field`, DELETE of `111` answers 409 `Item does not exist`. -/
theorem domain_error_mapping_witness :
    ((BooksHandleFunc
        (tableJSON [(plainObject ⟨lit "X", lit "Y", lit "0123456789"⟩,
          ⟨lit "X", lit "Y", lit "0123456789"⟩)] [])
        insertionSortSlice ResponseWriter.fresh
        ⟨MethodPost, lit "/api/books",
          some (plainObject ⟨lit "X", lit "Y", lit "0123456789"⟩)⟩ Books).w.status = 409 ∧
      (BooksHandleFunc
        (tableJSON [(plainObject ⟨lit "X", lit "Y", lit "0123456789"⟩,
          ⟨lit "X", lit "Y", lit "0123456789"⟩)] [])
        insertionSortSlice ResponseWriter.fresh
        ⟨MethodPost, lit "/api/books",
          some (plainObject ⟨lit "X", lit "Y", lit "0123456789"⟩)⟩ Books).w.body
        = lit "Item already exists") ∧
    ((BookHandleFunc
        (tableJSON [(plainObject ⟨[], lit "Y", lit "111"⟩, ⟨[], lit "Y", lit "111"⟩)] [])
        ResponseWriter.fresh
        ⟨MethodPut, lit "/api/books/" ++ lit "111",
          some (plainObject ⟨[], lit "Y", lit "111"⟩)⟩ Books).w.status = 409 ∧
      (BookHandleFunc
        (tableJSON [(plainObject ⟨[], lit "Y", lit "111"⟩, ⟨[], lit "Y", lit "111"⟩)] [])
        ResponseWriter.fresh
        ⟨MethodPut, lit "/api/books/" ++ lit "111",
          some (plainObject ⟨[], lit "Y", lit "111"⟩)⟩ Books).w.body
        = lit "Item is missing a required field") ∧
    ((BookHandleFunc (tableJSON [] []) ResponseWriter.fresh
        ⟨MethodDelete, lit "/api/books/" ++ lit "111", none⟩ Books).w.status = 409 ∧
      (BookHandleFunc (tableJSON [] []) ResponseWriter.fresh
        ⟨MethodDelete, lit "/api/books/" ++ lit "111", none⟩ Books).w.body
        = lit "Item does not exist") :=
  ⟨⟨((domain_error_mapping
        (tableJSON [(plainObject ⟨lit "X", lit "Y", lit "0123456789"⟩,
          ⟨lit "X", lit "Y", lit "0123456789"⟩)] [])
        insertionSortSlice Books (lit "/api/books") (lit "111")
        (plainObject ⟨lit "X", lit "Y", lit "0123456789"⟩) none
        ⟨lit "X", lit "Y", lit "0123456789"⟩ Error.errAlreadyExists).2.1
        (by decide) (by decide)).1,
     ((domain_error_mapping
        (tableJSON [(plainObject ⟨lit "X", lit "Y", lit "0123456789"⟩,
          ⟨lit "X", lit "Y", lit "0123456789"⟩)] [])
        insertionSortSlice Books (lit "/api/books") (lit "111")
        (plainObject ⟨lit "X", lit "Y", lit "0123456789"⟩) none
        ⟨lit "X", lit "Y", lit "0123456789"⟩ Error.errAlreadyExists).2.1
        (by decide) (by decide)).2.1⟩,
   ⟨((domain_error_mapping
        (tableJSON [(plainObject ⟨[], lit "Y", lit "111"⟩, ⟨[], lit "Y", lit "111"⟩)] [])
        insertionSortSlice Books (lit "/api/books") (lit "111")
        (plainObject ⟨[], lit "Y", lit "111"⟩) none
        ⟨[], lit "Y", lit "111"⟩ Error.errMissingField).2.2.1
        (by decide) (by decide)).1,
     ((domain_error_mapping
        (tableJSON [(plainObject ⟨[], lit "Y", lit "111"⟩, ⟨[], lit "Y", lit "111"⟩)] [])
        insertionSortSlice Books (lit "/api/books") (lit "111")
        (plainObject ⟨[], lit "Y", lit "111"⟩) none
        ⟨[], lit "Y", lit "111"⟩ Error.errMissingField).2.2.1
        (by decide) (by decide)).2.1⟩,
   ⟨((domain_error_mapping (tableJSON [] []) insertionSortSlice Books (lit "/api/books")
        (lit "111") [] none Book.zero Error.errDoesNotExist).2.2.2 (by decide)).1,
     ((domain_error_mapping (tableJSON [] []) insertionSortSlice Books (lit "/api/books")
        (lit "111") [] none Book.zero Error.errDoesNotExist).2.2.2 (by decide)).2.1⟩⟩

/-- C13. Unsupported methods: for every request method other than OPTIONS, GET and
POST, BooksHandleFunc answers 400 with body `Unsupported request method.`; for every
method other than GET, PUT and DELETE, BookHandleFunc (on a path under `/api/books/`)
does the same; in both cases the store is unchanged. -/
theorem unsupported_methods (J : JSON) (srt : SortSlice) (S : Store) (m path isbn : GoString)
    (body : Option GoString) :
    (m ≠ MethodOptions → m ≠ MethodGet → m ≠ MethodPost →
      (BooksHandleFunc J srt ResponseWriter.fresh ⟨m, path, body⟩ S).w.status = 400 ∧
      (BooksHandleFunc J srt ResponseWriter.fresh ⟨m, path, body⟩ S).w.body
        = lit "Unsupported request method." ∧
      (BooksHandleFunc J srt ResponseWriter.fresh ⟨m, path, body⟩ S).Books = S ∧
      (BooksHandleFunc J srt ResponseWriter.fresh ⟨m, path, body⟩ S).panicked = false) ∧
    (m ≠ MethodGet → m ≠ MethodPut → m ≠ MethodDelete →
      (BookHandleFunc J ResponseWriter.fresh ⟨m, lit "/api/books/" ++ isbn, body⟩ S).w.status
        = 400 ∧
      (BookHandleFunc J ResponseWriter.fresh ⟨m, lit "/api/books/" ++ isbn, body⟩ S).w.body
        = lit "Unsupported request method." ∧
      (BookHandleFunc J ResponseWriter.fresh ⟨m, lit "/api/books/" ++ isbn, body⟩ S).Books
        = S ∧
      (BookHandleFunc J ResponseWriter.fresh ⟨m, lit "/api/books/" ++ isbn, body⟩ S).panicked
        = false) := by
  refine ⟨?_, ?_⟩
  · intro h1 h2 h3
    rw [BooksHandleFunc_other J srt ⟨m, path, body⟩ S h1 h2 h3]
    exact ⟨rfl, rfl, rfl, rfl⟩
  · intro h1 h2 h3
    rw [BookHandleFunc_other J m body S isbn h1 h2 h3]
    exact ⟨rfl, rfl, rfl, rfl⟩

/-- C13 on the seeded store: PUT on the collection endpoint and POST on the item
endpoint are answered 400 `Unsupported request method.`. -/
theorem unsupported_methods_witness :
    ((BooksHandleFunc (tableJSON [] []) insertionSortSlice ResponseWriter.fresh
        ⟨MethodPut, lit "/api/books", none⟩ Books).w.status = 400 ∧
      (BooksHandleFunc (tableJSON [] []) insertionSortSlice ResponseWriter.fresh
        ⟨MethodPut, lit "/api/books", none⟩ Books).w.body
        = lit "Unsupported request method.") ∧
    ((BookHandleFunc (tableJSON [] []) ResponseWriter.fresh
        ⟨MethodPost, lit "/api/books/" ++ lit "111", none⟩ Books).w.status = 400 ∧
      (BookHandleFunc (tableJSON [] []) ResponseWriter.fresh
        ⟨MethodPost, lit "/api/books/" ++ lit "111", none⟩ Books).w.body
        = lit "Unsupported request method.") :=
  ⟨⟨((unsupported_methods (tableJSON [] []) insertionSortSlice Books MethodPut
        (lit "/api/books") (lit "111") none).1 (by decide) (by decide) (by decide)).1,
     ((unsupported_methods (tableJSON [] []) insertionSortSlice Books MethodPut
        (lit "/api/books") (lit "111") none).1 (by decide) (by decide) (by decide)).2.1⟩,
   ⟨((unsupported_methods (tableJSON [] []) insertionSortSlice Books MethodPost
        (lit "/api/books") (lit "111") none).2 (by decide) (by decide) (by decide)).1,
     ((unsupported_methods (tableJSON [] []) insertionSortSlice Books MethodPost
        (lit "/api/books") (lit "111") none).2 (by decide) (by decide) (by decide)).2.1⟩⟩

/-- The three CORS headers as `setupCORS` leaves them in the header map. -/
theorem setupCORS_values :
    (setupCORS ResponseWriter.fresh).header.Values (lit "Access-Control-Allow-Origin")
      = [lit "*"] ∧
    (setupCORS ResponseWriter.fresh).header.Values (lit "Access-Control-Allow-Methods")
      = [lit "POST, GET, OPTIONS, PUT, DELETE"] ∧
    (setupCORS ResponseWriter.fresh).header.Values (lit "Access-Control-Allow-Headers")
      = [lit "Accept, Content-Type, Content-Length, Accept-Encoding, X-CSRF-Token, Authorization"] := by
  decide

/-- The three CORS headers are still there once the Content-Type has been added. -/
theorem setupCORS_values_typed :
    ((setupCORS ResponseWriter.fresh).HeaderAdd (lit "Content-Type")
      (lit "application/json; charset-utf-8")).header.Values
        (lit "Access-Control-Allow-Origin") = [lit "*"] ∧
    ((setupCORS ResponseWriter.fresh).HeaderAdd (lit "Content-Type")
      (lit "application/json; charset-utf-8")).header.Values
        (lit "Access-Control-Allow-Methods") = [lit "POST, GET, OPTIONS, PUT, DELETE"] ∧
    ((setupCORS ResponseWriter.fresh).HeaderAdd (lit "Content-Type")
      (lit "application/json; charset-utf-8")).header.Values
        (lit "Access-Control-Allow-Headers")
      = [lit "Accept, Content-Type, Content-Length, Accept-Encoding, X-CSRF-Token, Authorization"] := by
  decide

/-- C15. CORS on the collection endpoint: for every request for which BooksHandleFunc
produces a response, the response is sent with Access-Control-Allow-Origin `*`,
Access-Control-Allow-Methods `POST, GET, OPTIONS, PUT, DELETE` and
Access-Control-Allow-Headers `Accept, Content-Type, Content-Length, Accept-Encoding,
X-CSRF-Token, Authorization`; for OPTIONS the status is 200, the body is empty and the
store is unchanged. -/
theorem collection_cors (J : JSON) (srt : SortSlice) (r : Request) (S : Store) (o : Outcome)
    (ho : o = BooksHandleFunc J srt ResponseWriter.fresh r S) (hp : o.panicked = false) :
    o.w.wroteHeader = true ∧
    o.w.sentHeader.Values (lit "Access-Control-Allow-Origin") = [lit "*"] ∧
    o.w.sentHeader.Values (lit "Access-Control-Allow-Methods")
      = [lit "POST, GET, OPTIONS, PUT, DELETE"] ∧
    o.w.sentHeader.Values (lit "Access-Control-Allow-Headers")
      = [lit "Accept, Content-Type, Content-Length, Accept-Encoding, X-CSRF-Token, Authorization"] ∧
    (r.Method = MethodOptions → o.w.status = 200 ∧ o.w.body = [] ∧ o.Books = S) := by
  obtain ⟨m, path, body⟩ := r
  subst ho
  have hc := setupCORS_values
  have hct := setupCORS_values_typed
  by_cases h1 : m = MethodOptions
  · subst h1
    rw [BooksHandleFunc_options]
    exact ⟨rfl, hc.1, hc.2.1, hc.2.2, fun _ => ⟨rfl, rfl, rfl⟩⟩
  by_cases h2 : m = MethodGet
  · subst h2
    cases hj : J.MarshalBooks (AllBooks srt S) with
    | none =>
      rw [BooksHandleFunc_get_fail J srt path body S hj]
      exact ⟨rfl, hc.1, hc.2.1, hc.2.2, fun h => absurd h h1⟩
    | some j =>
      rw [BooksHandleFunc_get_ok J srt path body S j hj]
      exact ⟨rfl, hct.1, hct.2.1, hct.2.2, fun h => absurd h h1⟩
  by_cases h3 : m = MethodPost
  · subst h3
    cases body with
    | none =>
      rw [BooksHandleFunc_post_unread]
      exact ⟨rfl, hc.1, hc.2.1, hc.2.2, fun h => absurd h h1⟩
    | some body =>
      cases hd : FromJSON J body with
      | none =>
        rw [BooksHandleFunc_post_undecoded J srt path body S hd] at hp
        exact Bool.noConfusion hp
      | some book =>
        cases he : (CreateBook S book).1.2 with
        | some e =>
          rw [BooksHandleFunc_post_error J srt path body S book e hd he]
          exact ⟨rfl, hc.1, hc.2.1, hc.2.2, fun h => absurd h h1⟩
        | none =>
          rw [BooksHandleFunc_post_ok J srt path body S book hd he] at hp ⊢
          cases hj : J.MarshalBook (CreateBook S book).1.1 with
          | none =>
            rw [hj] at hp
            exact Bool.noConfusion hp
          | some j =>
            exact ⟨rfl, hc.1, hc.2.1, hc.2.2, fun h => absurd h h1⟩
  · rw [BooksHandleFunc_other J srt ⟨m, path, body⟩ S h1 h2 h3]
    exact ⟨rfl, hc.1, hc.2.1, hc.2.2, fun h => absurd h h1⟩

/-- C15 on the seeded store: OPTIONS is answered 200 with an empty body and the
allow-origin header. -/
theorem collection_cors_witness :
    (BooksHandleFunc (tableJSON [] []) insertionSortSlice ResponseWriter.fresh
      ⟨MethodOptions, lit "/api/books", none⟩ Books).panicked = false ∧
    (BooksHandleFunc (tableJSON [] []) insertionSortSlice ResponseWriter.fresh
      ⟨MethodOptions, lit "/api/books", none⟩ Books).w.sentHeader.Values
        (lit "Access-Control-Allow-Origin") = [lit "*"] ∧
    ((BooksHandleFunc (tableJSON [] []) insertionSortSlice ResponseWriter.fresh
        ⟨MethodOptions, lit "/api/books", none⟩ Books).w.status = 200 ∧
      (BooksHandleFunc (tableJSON [] []) insertionSortSlice ResponseWriter.fresh
        ⟨MethodOptions, lit "/api/books", none⟩ Books).w.body = [] ∧
      (BooksHandleFunc (tableJSON [] []) insertionSortSlice ResponseWriter.fresh
        ⟨MethodOptions, lit "/api/books", none⟩ Books).Books = Books) :=
  ⟨by decide,
   (collection_cors (tableJSON [] []) insertionSortSlice
      ⟨MethodOptions, lit "/api/books", none⟩ Books _ rfl (by decide)).2.1,
   (collection_cors (tableJSON [] []) insertionSortSlice
      ⟨MethodOptions, lit "/api/books", none⟩ Books _ rfl (by decide)).2.2.2.2 rfl⟩

/-- C16 fails as stated. The body `not json` is no JSON document; on the seeded store
both the POST to the collection endpoint and the PUT to the item endpoint end in the
panic of FromJSON with no status line written, so no 500 is sent. -/
theorem malformed_json_counterexample :
    FromJSON (tableJSON [] []) (lit "not json") = none ∧
    ((BooksHandleFunc (tableJSON [] []) insertionSortSlice ResponseWriter.fresh
        ⟨MethodPost, lit "/api/books", some (lit "not json")⟩ Books).panicked = true ∧
      (BooksHandleFunc (tableJSON [] []) insertionSortSlice ResponseWriter.fresh
        ⟨MethodPost, lit "/api/books", some (lit "not json")⟩ Books).w.wroteHeader = false ∧
      (BooksHandleFunc (tableJSON [] []) insertionSortSlice ResponseWriter.fresh
        ⟨MethodPost, lit "/api/books", some (lit "not json")⟩ Books).w.status ≠ 500) ∧
    ((BookHandleFunc (tableJSON [] []) ResponseWriter.fresh
        ⟨MethodPut, lit "/api/books/0123456789", some (lit "not json")⟩ Books).panicked
        = true ∧
      (BookHandleFunc (tableJSON [] []) ResponseWriter.fresh
        ⟨MethodPut, lit "/api/books/0123456789", some (lit "not json")⟩ Books).w.wroteHeader
        = false ∧
      (BookHandleFunc (tableJSON [] []) ResponseWriter.fresh
        ⟨MethodPut, lit "/api/books/0123456789", some (lit "not json")⟩ Books).w.status
        ≠ 500) := by
  decide

/-- C16, amended. For every request body that FromJSON cannot decode as a Book, a POST
to the collection endpoint and a PUT to the item endpoint end in the panic of FromJSON:
the handler has written no status line and no body (so no 500), and the store is left
unchanged. -/
theorem malformed_json_panics (J : JSON) (srt : SortSlice) (S : Store)
    (path isbn body : GoString) (hd : FromJSON J body = none) :
    ((BooksHandleFunc J srt ResponseWriter.fresh ⟨MethodPost, path, some body⟩ S).panicked
        = true ∧
      (BooksHandleFunc J srt ResponseWriter.fresh ⟨MethodPost, path, some body⟩ S).w.wroteHeader
        = false ∧
      (BooksHandleFunc J srt ResponseWriter.fresh ⟨MethodPost, path, some body⟩ S).w.body
        = [] ∧
      (BooksHandleFunc J srt ResponseWriter.fresh ⟨MethodPost, path, some body⟩ S).Books
        = S) ∧
    ((BookHandleFunc J ResponseWriter.fresh
        ⟨MethodPut, lit "/api/books/" ++ isbn, some body⟩ S).panicked = true ∧
      (BookHandleFunc J ResponseWriter.fresh
        ⟨MethodPut, lit "/api/books/" ++ isbn, some body⟩ S).w.wroteHeader = false ∧
      (BookHandleFunc J ResponseWriter.fresh
        ⟨MethodPut, lit "/api/books/" ++ isbn, some body⟩ S).w.body = [] ∧
      (BookHandleFunc J ResponseWriter.fresh
        ⟨MethodPut, lit "/api/books/" ++ isbn, some body⟩ S).Books = S) := by
  rw [BooksHandleFunc_post_undecoded J srt path body S hd,
    BookHandleFunc_put_undecoded J body S isbn hd]
  exact ⟨⟨rfl, rfl, rfl, rfl⟩, ⟨rfl, rfl, rfl, rfl⟩⟩

/-- C16 amended, on the seeded store with the body `not json`. -/
theorem malformed_json_panics_witness :
    (BooksHandleFunc (tableJSON [] []) insertionSortSlice ResponseWriter.fresh
      ⟨MethodPost, lit "/api/books", some (lit "not json")⟩ Books).panicked = true ∧
    (BookHandleFunc (tableJSON [] []) ResponseWriter.fresh
      ⟨MethodPut, lit "/api/books/" ++ lit "0123456789", some (lit "not json")⟩ Books).Books
      = Books :=
  ⟨(malformed_json_panics (tableJSON [] []) insertionSortSlice Books (lit "/api/books")
      (lit "0123456789") (lit "not json") (by decide)).1.1,
   (malformed_json_panics (tableJSON [] []) insertionSortSlice Books (lit "/api/books")
      (lit "0123456789") (lit "not json") (by decide)).2.2.2.2⟩

/-- C14 at its failing inputs, on the seeded store. A successful POST of `{A, B, 111}`,
a GET, a successful PUT and a successful DELETE of `0123456789` all answer 200, but
the Content-Type is put in the header map only after `WriteHeader(200)` has sent the
status line, so it is not among the headers sent. The collection GET adds it before
writing and does send it. -/
theorem content_type_not_sent :
    ((BooksHandleFunc sampleJSON insertionSortSlice ResponseWriter.fresh
        ⟨MethodPost, lit "/api/books", some (plainObject bookA)⟩ Books).w.status = 200 ∧
      (BooksHandleFunc sampleJSON insertionSortSlice ResponseWriter.fresh
        ⟨MethodPost, lit "/api/books", some (plainObject bookA)⟩ Books).w.body
        = plainObject bookA ∧
      (BooksHandleFunc sampleJSON insertionSortSlice ResponseWriter.fresh
        ⟨MethodPost, lit "/api/books", some (plainObject bookA)⟩ Books).w.sentHeader.Values
          (lit "Content-Type") = [] ∧
      (BooksHandleFunc sampleJSON insertionSortSlice ResponseWriter.fresh
        ⟨MethodPost, lit "/api/books", some (plainObject bookA)⟩ Books).w.header.Values
          (lit "Content-Type") = [lit "application/json; charset-utf-8"]) ∧
    ((BookHandleFunc sampleJSON ResponseWriter.fresh
        ⟨MethodGet, lit "/api/books/0123456789", none⟩ Books).w.status = 200 ∧
      (BookHandleFunc sampleJSON ResponseWriter.fresh
        ⟨MethodGet, lit "/api/books/0123456789", none⟩ Books).w.sentHeader.Values
          (lit "Content-Type") = []) ∧
    ((BookHandleFunc sampleJSON ResponseWriter.fresh
        ⟨MethodPut, lit "/api/books/0123456789", some (plainObject bookCNG)⟩ Books).w.status
        = 200 ∧
      (BookHandleFunc sampleJSON ResponseWriter.fresh
        ⟨MethodPut, lit "/api/books/0123456789",
          some (plainObject bookCNG)⟩ Books).w.sentHeader.Values (lit "Content-Type") = []) ∧
    ((BookHandleFunc sampleJSON ResponseWriter.fresh
        ⟨MethodDelete, lit "/api/books/0123456789", none⟩ Books).w.status = 200 ∧
      (BookHandleFunc sampleJSON ResponseWriter.fresh
        ⟨MethodDelete, lit "/api/books/0123456789", none⟩ Books).w.sentHeader.Values
          (lit "Content-Type") = []) ∧
    ((BooksHandleFunc sampleJSON insertionSortSlice ResponseWriter.fresh
        ⟨MethodGet, lit "/api/books", none⟩ Books).w.status = 200 ∧
      (BooksHandleFunc sampleJSON insertionSortSlice ResponseWriter.fresh
        ⟨MethodGet, lit "/api/books", none⟩ Books).w.sentHeader.Values (lit "Content-Type")
        = [lit "application/json; charset-utf-8"]) := by
  decide

/-- No reachable store has the empty string as a key. -/
theorem run_empty_key (ops : List Op) : (run Books ops).find? [] = none := by
  rw [Store.find?_eq_none_iff]
  intro b hb
  have h := run_entries ops ([], b) hb
  exact h.2.2.2 h.1.symm

/-- C20. The empty key is never present: in every store reachable from the seeded
store through CreateBook, UpdateBook and DeleteBook, `GetBook("")` returns
found = false, so a GET of the bare path `/api/books/` is answered 404, and a PUT or
DELETE of it never succeeds: `UpdateBook("", b)` and `DeleteBook("")` always return an
error, DELETE is answered 409 and PUT is never answered 200. -/
theorem empty_key_never_present (ops : List Op) (J : JSON) (body : Option GoString)
    (b : Book) :
    (GetBook (run Books ops) []).2 = false ∧
    (UpdateBook (run Books ops) [] b).1.2 ≠ none ∧
    (DeleteBook (run Books ops) []).1.2 ≠ none ∧
    ((BookHandleFunc J ResponseWriter.fresh ⟨MethodGet, lit "/api/books/", body⟩
        (run Books ops)).w.status = 404 ∧
      (BookHandleFunc J ResponseWriter.fresh ⟨MethodGet, lit "/api/books/", body⟩
        (run Books ops)).w.body = lit "Item was not found.") ∧
    (BookHandleFunc J ResponseWriter.fresh ⟨MethodDelete, lit "/api/books/", body⟩
      (run Books ops)).w.status = 409 ∧
    (BookHandleFunc J ResponseWriter.fresh ⟨MethodPut, lit "/api/books/", body⟩
      (run Books ops)).w.status ≠ 200 := by
  have hk := run_empty_key ops
  have hpath : lit "/api/books/" = lit "/api/books/" ++ ([] : GoString) :=
    (List.append_nil _).symm
  have hupd : (UpdateBook (run Books ops) [] b).1.2 ≠ none := by
    by_cases hm : b.Title = [] ∨ b.Author = [] ∨ b.ISBN = []
    · rw [UpdateBook_missing _ [] b hm]
      exact fun h => Option.noConfusion h
    · rw [UpdateBook_absent _ [] b hm hk]
      exact fun h => Option.noConfusion h
  refine ⟨?_, hupd, ?_, ?_, ?_, ?_⟩
  · simp [GetBook, Store.index, hk]
  · rw [DeleteBook_absent _ [] hk]
    exact fun h => Option.noConfusion h
  · rw [hpath, BookHandleFunc_get_absent J body _ [] hk]
    exact ⟨rfl, rfl⟩
  · rw [hpath, BookHandleFunc_delete_absent J body _ [] hk]
    rfl
  · rw [hpath]
    cases body with
    | none =>
      rw [BookHandleFunc_put_unread]
      exact show (500 : Nat) ≠ 200 by decide
    | some body =>
      cases hd : FromJSON J body with
      | none =>
        rw [BookHandleFunc_put_undecoded J body _ [] hd]
        exact show (0 : Nat) ≠ 200 by decide
      | some book =>
        cases he : (UpdateBook (run Books ops) [] book).1.2 with
        | none =>
          exfalso
          by_cases hm : book.Title = [] ∨ book.Author = [] ∨ book.ISBN = []
          · rw [UpdateBook_missing _ [] book hm] at he
            exact Option.noConfusion he
          · rw [UpdateBook_absent _ [] book hm hk] at he
            exact Option.noConfusion he
        | some e =>
          rw [BookHandleFunc_put_error J body _ [] book e hd he]
          exact show (409 : Nat) ≠ 200 by decide

end BookAPI
